import Mathlib

/-!
# EffectiveSan / TyCHE runtime metadata: a verification development

Shallow embedding of `effective.h` (constants, the hashing and reciprocal
expressions, the metadata records) and of `effective_data.c` (the predefined
type records), followed by a model of the checker that the header only
declares.

Machine integers are natural numbers or integers with explicit reduction
modulo `2 ^ 64` where the C code can wrap.
-/

namespace Effective

set_option maxRecDepth 100000

/-! ## Constants of `effective.h` -/

/-- The width of `size_t` and `uint64_t`: `2 ^ 64`. -/
def WORD : Nat := 2 ^ 64

/-- The constant `SIZE_MAX` of a 64-bit target. -/
def SIZE_MAX : Nat := 2 ^ 64 - 1

/-- `#define EFFECTIVE_DELTA (16 * ((int64_t)1 << 30))`  (16GB). -/
def EFFECTIVE_DELTA : Int := 16 * ((1 : Int) * 2 ^ 30)

/-- `#define EFFECTIVE_RADIX 63`. -/
def EFFECTIVE_RADIX : Nat := 63

/-- `#define EFFECTIVE_MAX_PROBE 8`. -/
def EFFECTIVE_MAX_PROBE : Nat := 8

/-- `#define EFFECTIVE_SANITY 0x4FEBF99B`. -/
def EFFECTIVE_SANITY : Nat := 0x4FEBF99B

/-- `#define EFFECTIVE_TYPE_NIL_HASH ((uint64_t)-1)`. -/
def EFFECTIVE_TYPE_NIL_HASH : Nat := ((-1 : Int) % (2 ^ 64 : Int)).toNat

/-- `#define EFFECTIVE_TYPE_INT8_HASH 0x703EDF97BC60677Dull`. -/
def EFFECTIVE_TYPE_INT8_HASH : Nat := 0x703EDF97BC60677D

/-- `#define EFFECTIVE_ENTRY_EMPTY_HASH EFFECTIVE_TYPE_NIL_HASH`. -/
def EFFECTIVE_ENTRY_EMPTY_HASH : Nat := EFFECTIVE_TYPE_NIL_HASH

/-- `#define NUMBER_OF_ENTRIES_IN_EACH_CACHELINE 14`. -/
def NUMBER_OF_ENTRIES_IN_EACH_CACHELINE : Nat := 14

/-- `#define TYCHE_OFFSETS_DEVIDER 32`. -/
def TYCHE_OFFSETS_DEVIDER : Nat := 32

/-- `#define TYCHE_NUMBER_OF_OFFSETS() ((1 * 16384 * 32)/TYCHE_OFFSETS_DEVIDER)`. -/
def TYCHE_NUMBER_OF_OFFSETS : Nat := (1 * 16384 * 32) / TYCHE_OFFSETS_DEVIDER

/-- `sizeof(int8_t)`. -/
def sizeof_int8_t : Nat := 1

/-! ## The two expression macros -/

/-- `#define EFFECTIVE_MAGIC(size) (((~(SIZE_MAX << EFFECTIVE_RADIX)) / (size)) + 1)`,
evaluated in `size_t`: the shift and the final addition wrap modulo `2 ^ 64`,
and `~x` is `SIZE_MAX - x`.  (Division by zero is undefined in C; here it
yields `0`, as `Nat` division does.) -/
def EFFECTIVE_MAGIC (size : Nat) : Nat :=
  ((SIZE_MAX - (SIZE_MAX * 2 ^ EFFECTIVE_RADIX) % WORD) / size + 1) % WORD

/-- One bit of the reflected CRC-32C division (polynomial `0x82F63B78`). -/
def crc32c_bit (s : Nat) : Nat :=
  if s % 2 = 1 then (s / 2) ^^^ 0x82F63B78 else s / 2

/-- Modelled from the spec: the compiler builtin
`__builtin_ia32_crc32di(crc, data)`, which the repository uses but does not
define (the SSE4.2 `crc32` instruction on a 64-bit operand, CRC-32C): the low 32 bits of `crc` are the initial remainder, the eight
bytes of `data` are folded in least-significant bit first, the result is the
32-bit remainder, zero-extended. -/
def crc32di (crc data : Nat) : Nat :=
  crc32c_bit^[64] ((crc % 2 ^ 32) ^^^ (data % WORD))

/-- `#define EFFECTIVE_HASH(h1, h2, offset)
((uint64_t)__builtin_ia32_crc32di((h2), (offset)) ^ ((h1) ^ (h2)))`. -/
def EFFECTIVE_HASH (h1 h2 offset : Nat) : Nat :=
  (crc32di h2 offset) ^^^ (h1 ^^^ h2)

/-! ## Records of `effective.h` -/

/-- `typedef intptr_t EFFECTIVE_BOUNDS EFFECTIVE_VECTOR_SIZE(16)`: a vector of
two `intptr_t`, index 0 the lower bound and index 1 the upper bound. -/
structure EFFECTIVE_BOUNDS where
  lo : Int
  hi : Int
deriving DecidableEq, Repr

/-- `struct EFFECTIVE_ENTRY`, fields in declaration order. -/
structure EFFECTIVE_ENTRY where
  name : Nat
  offset : Nat
  hash : Nat
  _pad : Nat
  bounds : EFFECTIVE_BOUNDS
deriving DecidableEq, Repr

/-- `struct TYCHE_METADATA_CACHELINE`: the fourteen `uint32_t` members
`CacheLine_0 .. CacheLine_13` in order, and `next_cacheline` (`none` for
`NULL`; the chain is kept by value). -/
structure TYCHE_METADATA_CACHELINE where
  CacheLine : List Nat
  next_cacheline : Option Unit
deriving DecidableEq, Repr

/-- `struct EFFECTIVE_INFO` as far as the predefined records fill it. -/
structure EFFECTIVE_INFO where
  name : String
  size : Nat
  num_entries : Nat
  flags : Nat
deriving DecidableEq, Repr

/-- `struct EFFECTIVE_TYPE`, fields in declaration order; the flexible array
member `layout[]` is the list of its initialised elements. -/
structure EFFECTIVE_TYPE where
  tyche_meta : TYCHE_METADATA_CACHELINE
  hash : Nat
  hash2 : Nat
  size : Nat
  size_fam : Nat
  offset_fam : Nat
  sanity : Nat
  magic : Nat
  mask : Nat
  info : EFFECTIVE_INFO
  next : Nat
  length : Nat
  layout : List EFFECTIVE_ENTRY
deriving DecidableEq, Repr

/-! ## C initialisers -/

/-- An initialiser of C: an expression, or a brace-enclosed list of
expressions. -/
inductive CInit where
  | expr (v : Int)
  | braces (vs : List Int)
deriving DecidableEq, Repr

/-- Conversion of an integer constant to `uint64_t` (also used for the pointer
member `name`, which the initialisers give an integer). -/
def to_u64 (v : Int) : Nat := (v % (2 ^ 64 : Int)).toNat

/-- Initialisation of a scalar member: the expression itself, or the first
expression of a brace-enclosed list (C11 6.7.9p11; further expressions are
excess elements, which the compiler drops with a warning). An absent
initialiser gives zero (6.7.9p21). -/
def CInit.scalar : Option CInit → Int
  | none => 0
  | some (.expr v) => v
  | some (.braces []) => 0
  | some (.braces (v :: _)) => v

/-- Initialisation of a member of the two-element vector type
`EFFECTIVE_BOUNDS`: the elements of the brace-enclosed list in order, zero
where the list is short or the initialiser absent. -/
def CInit.vector : Option CInit → EFFECTIVE_BOUNDS
  | none => ⟨0, 0⟩
  | some (.expr v) => ⟨v, 0⟩
  | some (.braces vs) => ⟨vs.getD 0 0, vs.getD 1 0⟩

/-- Positional initialisation of a `struct EFFECTIVE_ENTRY` by a brace-enclosed
list without designators: the initialisers go to the members in declaration
order (`name`, `offset`, `hash`, `_pad`, `bounds`), C11 6.7.9p17. -/
def EFFECTIVE_ENTRY.init (is : List CInit) : EFFECTIVE_ENTRY :=
  { name := to_u64 (CInit.scalar (is.get? 0))
    offset := to_u64 (CInit.scalar (is.get? 1))
    hash := to_u64 (CInit.scalar (is.get? 2))
    _pad := to_u64 (CInit.scalar (is.get? 3))
    bounds := CInit.vector (is.get? 4) }

/-! ## Predefined records of `effective_data.c` -/

/-- `const EFFECTIVE_INFO EFFECTIVE_INFO_FREE`. -/
def EFFECTIVE_INFO_FREE : EFFECTIVE_INFO :=
  { name := "<free memory>", size := sizeof_int8_t, num_entries := 0, flags := 0 }

/-- `const EFFECTIVE_INFO EFFECTIVE_INFO_INT8`. -/
def EFFECTIVE_INFO_INT8 : EFFECTIVE_INFO :=
  { name := "int8_t", size := sizeof_int8_t, num_entries := 0, flags := 0 }

/-- Conversion of an integer constant to `uint32_t`. -/
def to_u32 (v : Int) : Nat := (v % (2 ^ 32 : Int)).toNat

/-- `struct TYCHE_METADATA_CACHELINE EFFECTIVE_SEC0_CL_INT8`: `CacheLine_0` is
`0`, `CacheLine_1` to `CacheLine_13` are `-1`, `next_cacheline` is `NULL`. -/
def EFFECTIVE_SEC0_CL_INT8 : TYCHE_METADATA_CACHELINE :=
  { CacheLine :=
      to_u32 0 :: List.replicate (NUMBER_OF_ENTRIES_IN_EACH_CACHELINE - 1) (to_u32 (-1))
    next_cacheline := none }

/-- `const struct EFFECTIVE_TYPE EFFECTIVE_TYPE_FREE`. The member `length` has
no initialiser and is therefore zero; `.layout = {{-1, 0, {0, 0}}}`. -/
def EFFECTIVE_TYPE_FREE : EFFECTIVE_TYPE :=
  { tyche_meta := EFFECTIVE_SEC0_CL_INT8
    hash := 0xAB63C4D0EB0A6EC4
    hash2 := 0xAB63C4D0EB0A6EC4
    size := sizeof_int8_t
    size_fam := sizeof_int8_t
    offset_fam := 0
    sanity := EFFECTIVE_SANITY
    magic := EFFECTIVE_MAGIC sizeof_int8_t
    mask := 0
    info := EFFECTIVE_INFO_FREE
    next := EFFECTIVE_TYPE_NIL_HASH
    length := 0
    layout := [EFFECTIVE_ENTRY.init [.expr (-1), .expr 0, .braces [0, 0]]] }

/-- `const struct EFFECTIVE_TYPE EFFECTIVE_TYPE_INT8`. The member `length` has
no initialiser and is therefore zero; `.layout = {
{0x00000000B79F915Eull, 0, {-EFFECTIVE_DELTA, EFFECTIVE_DELTA}},
{-1, 0, {0, 0}} }`. -/
def EFFECTIVE_TYPE_INT8 : EFFECTIVE_TYPE :=
  { tyche_meta := EFFECTIVE_SEC0_CL_INT8
    hash := EFFECTIVE_TYPE_INT8_HASH
    hash2 := EFFECTIVE_TYPE_INT8_HASH
    size := sizeof_int8_t
    size_fam := sizeof_int8_t
    offset_fam := 0
    sanity := EFFECTIVE_SANITY
    magic := EFFECTIVE_MAGIC sizeof_int8_t
    mask := 1
    info := EFFECTIVE_INFO_INT8
    next := EFFECTIVE_TYPE_INT8_HASH
    length := 0
    layout :=
      [ EFFECTIVE_ENTRY.init
          [.expr 0x00000000B79F915E, .expr 0, .braces [-EFFECTIVE_DELTA, EFFECTIVE_DELTA]],
        EFFECTIVE_ENTRY.init [.expr (-1), .expr 0, .braces [0, 0]] ] }

/-- `const EFFECTIVE_BOUNDS EFFECTIVE_BOUNDS_NEG_DELTA_DELTA =
{-EFFECTIVE_DELTA, EFFECTIVE_DELTA}`. -/
def EFFECTIVE_BOUNDS_NEG_DELTA_DELTA : EFFECTIVE_BOUNDS :=
  CInit.vector (some (.braces [-EFFECTIVE_DELTA, EFFECTIVE_DELTA]))

/-- `const EFFECTIVE_BOUNDS EFFECTIVE_BOUNDS_NEG_1_0 = {-1, 0}`. -/
def EFFECTIVE_BOUNDS_NEG_1_0 : EFFECTIVE_BOUNDS :=
  CInit.vector (some (.braces [-1, 0]))

/-! ## Statistics of `effective.h` -/

/-- The `size_t` counters that `effective.h` declares under "Stats", in order. -/
structure EFFECTIVE_STATS where
  effective_num_nonfat_type_checks : Nat
  effective_num_char_type_checks : Nat
  effective_num_fast_type_checks : Nat
  effective_num_slow_type_checks : Nat
  effective_num_bounds_checks : Nat
  effective_num_type_errors : Nat
  effective_num_bounds_errors : Nat
  effective_num_double_free_errors : Nat
  effective_num_bad_free_errors : Nat
  tyche_allocation_id : Nat
deriving DecidableEq, Repr

/-- `#define EFFECTIVE_COUNT(stat) (stat)++` (single-threaded) or
`__sync_fetch_and_add(&(stat), 1)`: in a sequential execution either form adds
one to the `size_t` counter, modulo `2 ^ 64`. -/
def EFFECTIVE_COUNT (stat : Nat) : Nat := (stat + 1) % WORD

/-- `struct EFFECTIVE_META`: `type` (`none` for a null pointer), `size`, `PID`.
The specification calls the third member the allocation epoch. -/
structure EFFECTIVE_META where
  type : Option EFFECTIVE_TYPE
  size : Nat
  PID : Nat
deriving DecidableEq, Repr

/-! ## The runtime behind the declarations

`effective.h` declares `effective_type_check`, `effective_bounds_check`,
`effective_malloc`, `effective_free` and the error reporters; their bodies are
not part of the sources at hand. The definitions of this section follow the
specification (sections 3 and 4) and use the constants, macros and records
above. -/

/-- `EFFECTIVE_DELTA` as an unsigned quantity: the width of one region. -/
def DELTA : Nat := EFFECTIVE_DELTA.toNat

/-- Modelled from the spec: the lifecycle state of an address-range slot
(section 4.5), which the absent allocator keeps: `FREE -> ALLOCATED -> FREED ->
ALLOCATED ...`. -/
inductive SLOT_STATE where
  | FREE
  | ALLOCATED
  | FREED
deriving DecidableEq, Repr

/-- Modelled from the spec: the granule of an offset into an allocation, whose
tag the capability cache keeps. Sections 3 and 4.4 speak of a fixed granule
size without giving it; it is taken as `TYCHE_OFFSETS_DEVIDER`, the one
granularity constant of `effective.h`. -/
def granule (offset : Nat) : Nat := offset / TYCHE_OFFSETS_DEVIDER

/-- Modelled from the spec: one slot of the allocation metadata table (section
3), absent from the sources: lifecycle state, the `EFFECTIVE_META` record, and
the capability-cache chain of the allocation as the map from granule index to
tag that the chain represents. A tag is the type hash that last validated the
granule (section 3; the compact encoding of the hash is not described and is
not modelled), `none` is the distinguished unknown value. -/
structure SLOT where
  state : SLOT_STATE
  metadata : EFFECTIVE_META
  cache : Nat → Option Nat

/-- Modelled from the spec: the state of the runtime (sections 2 to 4), absent
from the sources. `sizes` lists the element size of every size class;
class `c` owns the delta-aligned window
`[(c + 1) * DELTA, (c + 2) * DELTA)`, the window below belongs to no class.
`bump c` is the number of slots of class `c` handed out so far, `free_list c`
the bases of its freed slots, `slots` the metadata table keyed by allocation
base. `stats` are the counters of `effective.h`;
`num_use_after_free_errors` is the use-after-free counter of section 4.7. -/
structure RUNTIME where
  sizes : List Nat
  bump : Nat → Nat
  free_list : Nat → List Nat
  slots : Nat → SLOT
  stats : EFFECTIVE_STATS
  num_use_after_free_errors : Nat

/-- Replace the value of a table at one key. -/
def table_set {α : Type} (f : Nat → α) (k : Nat) (v : α) : Nat → α :=
  fun i => if i = k then v else f i

/-- Modelled from the spec: first address of the region of class `c` (section
4.1), absent from the sources. -/
def region_start (c : Nat) : Nat := (c + 1) * DELTA

/-- Modelled from the spec: the size-class choice of the absent region allocator
(section 4.1): the smallest size class whose element size is at least the
requested size, that is the (first) class with the least such element size;
`none` when no class holds the request. -/
def size_class (sizes : List Nat) (size : Nat) : Option Nat :=
  match (sizes.filter (fun E => decide (size ≤ E))).min? with
  | none => none
  | some E => some (sizes.indexOf E)

/-- The result of the resolver: size class, allocation base, allocation size. -/
structure RESOLVED where
  cls : Nat
  base : Nat
  size : Nat
deriving DecidableEq, Repr

/-- Modelled from the spec: the base and bounds resolver (section 4.2), absent
from the sources. The class comes from the high bits of the pointer, the
element index from the full-width product of the offset in the region with the
magic of the class, shifted right by `EFFECTIVE_RADIX`; the base is
`region_start + index * element_size`, and the size recovered from the pointer
alone is the element size of the class. A pointer outside every region is
non-heap (`none`). -/
def resolve (sizes : List Nat) (p : Nat) : Option RESOLVED :=
  let w := p / DELTA
  if w = 0 then none
  else
    match sizes.get? (w - 1) with
    | none => none
    | some E =>
      let idx := ((p - region_start (w - 1)) * EFFECTIVE_MAGIC E) / 2 ^ EFFECTIVE_RADIX
      some ⟨w - 1, region_start (w - 1) + idx * E, E⟩

/-- Modelled from the spec: the probe loop of the layout lookup (section 4.3),
absent from the sources. At most `fuel` slots are examined from `idx` on,
advancing linearly; the walk stops at the first entry whose offset and hash
match (hit), at the empty sentinel (miss), at the end of the table (miss) or
when the probe bound is used up (miss). -/
def probe (layout : List EFFECTIVE_ENTRY) (key offset : Nat) :
    Nat → Nat → Option EFFECTIVE_ENTRY
  | 0, _ => none
  | fuel + 1, idx =>
    match layout.get? idx with
    | none => none
    | some e =>
      if e.offset = offset ∧ e.hash = key then some e
      else if e.hash = EFFECTIVE_ENTRY_EMPTY_HASH then none
      else probe layout key offset fuel (idx + 1)

/-- Modelled from the spec: the layout lookup (section 4.3), absent from the
sources: the probe key is `EFFECTIVE_HASH` of the hash looked for, the
secondary hash of the table's type and the offset; probing starts at
`key & mask` and is bounded by `EFFECTIVE_MAX_PROBE`. -/
def lookup (t : EFFECTIVE_TYPE) (h offset : Nat) : Option EFFECTIVE_ENTRY :=
  probe t.layout (EFFECTIVE_HASH h t.hash2 offset) offset EFFECTIVE_MAX_PROBE
    ((EFFECTIVE_HASH h t.hash2 offset) &&& t.mask)

/-- Modelled from the spec: an entry is live when its hash is not the empty
sentinel (section 3). -/
def EFFECTIVE_ENTRY.live (e : EFFECTIVE_ENTRY) : Prop :=
  e.hash ≠ EFFECTIVE_ENTRY_EMPTY_HASH

/-- Modelled from the spec: the division-free reduction of an offset from the
allocation base to an offset inside one element of the declared type, by the
magic of the type record (section 3). -/
def element_offset (t : EFFECTIVE_TYPE) (offset : Nat) : Nat :=
  offset - ((offset * t.magic) / 2 ^ EFFECTIVE_RADIX) * t.size_fam

/-- Modelled from the spec: `effective_type_error` (section 4.7), declared in
`effective.h` only: count a type error. -/
def effective_type_error (rt : RUNTIME) : RUNTIME :=
  { rt with stats := { rt.stats with
      effective_num_type_errors := EFFECTIVE_COUNT rt.stats.effective_num_type_errors } }

/-- Modelled from the spec: `effective_bounds_error` (section 4.7), declared in
`effective.h` only: count a bounds error. -/
def effective_bounds_error (rt : RUNTIME) : RUNTIME :=
  { rt with stats := { rt.stats with
      effective_num_bounds_errors := EFFECTIVE_COUNT rt.stats.effective_num_bounds_errors } }

/-- Modelled from the spec: `effective_double_free_error` (section 4.7),
declared in `effective.h` only: count a double free. -/
def effective_double_free_error (rt : RUNTIME) : RUNTIME :=
  { rt with stats := { rt.stats with
      effective_num_double_free_errors :=
        EFFECTIVE_COUNT rt.stats.effective_num_double_free_errors } }

/-- Modelled from the spec: `effective_bad_free_error` (section 4.7), declared
in `effective.h` only: count a bad free. -/
def effective_bad_free_error (rt : RUNTIME) : RUNTIME :=
  { rt with stats := { rt.stats with
      effective_num_bad_free_errors := EFFECTIVE_COUNT rt.stats.effective_num_bad_free_errors } }

/-- Modelled from the spec: the use-after-free report (section 4.7), for which
the sources declare nothing: count a use after free. -/
def effective_use_after_free_error (rt : RUNTIME) : RUNTIME :=
  { rt with num_use_after_free_errors := EFFECTIVE_COUNT rt.num_use_after_free_errors }

/-- Modelled from the spec: `effective_bounds_check` (section 4.6), declared in
`effective.h` only: the access `[lb, ub)` is accepted when
`lb >= bounds.lower && ub <= bounds.upper`; a violation reports a bounds
error. -/
def effective_bounds_check (rt : RUNTIME) (bounds : EFFECTIVE_BOUNDS) (_ptr : Nat)
    (lb ub : Int) : RUNTIME :=
  if lb ≥ bounds.lo ∧ ub ≤ bounds.hi then rt else effective_bounds_error rt

/-- Modelled from the spec: the slot written by an allocation (section 4.5):
ALLOCATED, declared type and size assigned, epoch incremented, cache chain
reset to unknown. -/
def allocated_slot (old : SLOT) (size : Nat) (t : EFFECTIVE_TYPE) : SLOT :=
  { state := .ALLOCATED
    metadata := { type := some t, size := size, PID := old.metadata.PID + 1 }
    cache := fun _ => none }

/-- Modelled from the spec: `effective_malloc` (sections 4.1 and 4.5), declared
in `effective.h` only. The request goes to the smallest class that holds it; a
freed slot of the class is reused if there is one, otherwise the next unused
slot of the region is taken; exhaustion of the region and a request larger than
every class are fatal (`none`). The result is the new state and the bounds of
the allocation. -/
def effective_malloc (rt : RUNTIME) (size : Nat) (t : EFFECTIVE_TYPE) :
    Option (RUNTIME × EFFECTIVE_BOUNDS) :=
  match size_class rt.sizes size with
  | none => none
  | some c =>
    match rt.free_list c with
    | base :: rest =>
      some ({ rt with
                free_list := table_set rt.free_list c rest
                slots := table_set rt.slots base (allocated_slot (rt.slots base) size t) },
            ⟨base, base + size⟩)
    | [] =>
      if (rt.bump c + 1) * rt.sizes.getD c 0 ≤ DELTA then
        let base := region_start c + rt.bump c * rt.sizes.getD c 0
        some ({ rt with
                  bump := table_set rt.bump c (rt.bump c + 1)
                  slots := table_set rt.slots base (allocated_slot (rt.slots base) size t) },
              ⟨base, base + size⟩)
      else none

/-- Modelled from the spec: the slot left by a free (section 4.5): FREED, the
type overwritten with the sentinel `EFFECTIVE_TYPE_FREE`, the epoch retained,
the cache chain cleared. -/
def freed_slot (old : SLOT) : SLOT :=
  { state := .FREED
    metadata := { type := some EFFECTIVE_TYPE_FREE, size := old.metadata.size,
                  PID := old.metadata.PID }
    cache := fun _ => none }

/-- Modelled from the spec: `effective_free` (section 4.5), declared in
`effective.h` only. A pointer that is not the base of a slot, or whose slot was
never allocated, is a bad free; a FREED slot is a double free, which changes
nothing but the counter; an ALLOCATED slot becomes FREED and returns to the
free list of its class. -/
def effective_free (rt : RUNTIME) (ptr : Nat) : RUNTIME :=
  match resolve rt.sizes ptr with
  | none => effective_bad_free_error rt
  | some r =>
    if ptr ≠ r.base then effective_bad_free_error rt
    else
      match (rt.slots r.base).state with
      | .FREE => effective_bad_free_error rt
      | .FREED => effective_double_free_error rt
      | .ALLOCATED =>
        { rt with
            free_list := table_set rt.free_list r.cls (r.base :: rt.free_list r.cls)
            slots := table_set rt.slots r.base (freed_slot (rt.slots r.base)) }

/-- Counting one check on the cache path. -/
def count_fast (rt : RUNTIME) : RUNTIME :=
  { rt with stats := { rt.stats with
      effective_num_fast_type_checks := EFFECTIVE_COUNT rt.stats.effective_num_fast_type_checks } }

/-- Counting one registry walk. -/
def count_slow (rt : RUNTIME) : RUNTIME :=
  { rt with stats := { rt.stats with
      effective_num_slow_type_checks := EFFECTIVE_COUNT rt.stats.effective_num_slow_type_checks } }

/-- Counting one check of a non-heap pointer. -/
def count_nonfat (rt : RUNTIME) : RUNTIME :=
  { rt with stats := { rt.stats with
      effective_num_nonfat_type_checks :=
        EFFECTIVE_COUNT rt.stats.effective_num_nonfat_type_checks } }

/-- The zero-width bounds at a pointer. -/
def zero_width (ptr : Nat) : EFFECTIVE_BOUNDS := ⟨ptr, ptr⟩

/-- Absolute bounds: the base of the sub-object plus its relative bounds. -/
def absolute (ptr : Nat) (b : EFFECTIVE_BOUNDS) : EFFECTIVE_BOUNDS :=
  ⟨(ptr : Int) + b.lo, (ptr : Int) + b.hi⟩

/-- Modelled from the spec: the write-back into the capability cache (section
4.4): the validated type hash is written into the tag of one granule, state
and metadata stay. -/
def cache_write (slot : SLOT) (g : Nat) (hash : Nat) : SLOT :=
  { state := slot.state
    metadata := slot.metadata
    cache := table_set slot.cache g (some hash) }

/-- Modelled from the spec: the registry walk of `effective_type_check` (section
4.6), taken on a cache miss: the layout of the declared type is looked up at
the offset of the pointer; a miss reports a type error and gives zero-width
bounds, a hit writes the validated hash into the tag of the granule and gives
the absolute bounds of the sub-object. -/
def registry_walk (rt : RUNTIME) (base ptr : Nat) (u : EFFECTIVE_TYPE) :
    RUNTIME × EFFECTIVE_BOUNDS :=
  let slot := rt.slots base
  let offset := ptr - base
  match slot.metadata.type with
  | none => (effective_type_error rt, zero_width ptr)
  | some t =>
    match lookup t u.hash (element_offset t offset) with
    | none => (effective_type_error rt, zero_width ptr)
    | some e =>
      let b := absolute ptr e.bounds
      ({ rt with slots := table_set rt.slots base
                  (cache_write slot (granule offset) u.hash) }, b)

/-- Modelled from the spec: `effective_type_check` (section 4.6), declared in
`effective.h` only. A non-heap pointer gets the wide sentinel bounds around
it. Otherwise the slot of the resolved base decides: FREED reports a use after
free and gives zero-width bounds; a slot never allocated has no declared type,
which is a type error; for an ALLOCATED slot the tag of the accessed granule
is consulted, a tag that equals the expected hash is a hit, which accepts
without a registry walk, anything else falls through to the registry walk.
Section 4.4 says that a hit accepts and not which bounds the check then
returns: they are the parameter `hit`, a function of the state, the pointer
and the expected type. -/
def effective_type_check (hit : RUNTIME → Nat → EFFECTIVE_TYPE → EFFECTIVE_BOUNDS)
    (rt : RUNTIME) (ptr : Nat) (u : EFFECTIVE_TYPE) : RUNTIME × EFFECTIVE_BOUNDS :=
  match resolve rt.sizes ptr with
  | none => (count_nonfat rt, absolute ptr EFFECTIVE_BOUNDS_NEG_DELTA_DELTA)
  | some r =>
    match (rt.slots r.base).state with
    | .FREED => (effective_use_after_free_error rt, zero_width ptr)
    | .FREE => (effective_type_error rt, zero_width ptr)
    | .ALLOCATED =>
      if (rt.slots r.base).cache (granule (ptr - r.base)) = some u.hash then
        (count_fast rt, hit rt ptr u)
      else registry_walk (count_slow rt) r.base ptr u

/-- The runtime before any allocation, for a given table of size classes: every
slot FREE with no declared type, every counter zero. -/
def RUNTIME.init (sizes : List Nat) : RUNTIME :=
  { sizes := sizes
    bump := fun _ => 0
    free_list := fun _ => []
    slots := fun _ =>
      { state := .FREE, metadata := { type := none, size := 0, PID := 0 }, cache := fun _ => none }
    stats := ⟨0, 0, 0, 0, 0, 0, 0, 0, 0, 0⟩
    num_use_after_free_errors := 0 }

/-! ## The example of the paper (`test/Example.cpp`)

`struct T {int a[3]; char *s;}; struct S {float f; struct T t;};`
`S *s = new S[100]; int *p = s[10].t.a;` -/

/-- An empty slot of a layout table. -/
def EMPTY_ENTRY : EFFECTIVE_ENTRY :=
  { name := 0, offset := 0, hash := EFFECTIVE_ENTRY_EMPTY_HASH, _pad := 0, bounds := ⟨0, 0⟩ }

/-- A type record with the given hash, size, mask and layout; the other members
as in the predefined records. -/
def example_type (hash size mask : Nat) (layout : List EFFECTIVE_ENTRY) : EFFECTIVE_TYPE :=
  { tyche_meta := EFFECTIVE_SEC0_CL_INT8
    hash := hash
    hash2 := hash
    size := size
    size_fam := size
    offset_fam := 0
    sanity := EFFECTIVE_SANITY
    magic := EFFECTIVE_MAGIC size
    mask := mask
    info := { name := "", size := size, num_entries := 0, flags := 0 }
    next := EFFECTIVE_TYPE_NIL_HASH
    length := layout.length
    layout := layout }

/-- Hash of `int` in the example: `EFFECTIVE_COERCED_INT32_HASH` of `effective.h`. -/
def INT32_HASH : Nat := 0x51A0B9BF4F692902
/-- Hash of `char *` in the example: `EFFECTIVE_TYPE_INT8_PTR_HASH` of `effective.h`. -/
def INT8_PTR_HASH : Nat := 0x8D0DECDF6C6A8711
/-- Hash of `struct S` in the example (an arbitrary 64-bit constant). -/
def S_HASH : Nat := 0x1B4E5A7C93D2F086
/-- Hash of `struct T` in the example (an arbitrary 64-bit constant). -/
def T_HASH : Nat := 0x6C0F2E9A4D7B1835
/-- Hash of `float` in the example (an arbitrary 64-bit constant). -/
def FLOAT32_HASH : Nat := 0x3A9D41C7E58B60F2
/-- The layout entry of `struct S` for a sub-object of the type with hash `h` at
`offset`, with bounds relative to that offset. -/
def S_entry (h offset : Nat) (lo hi : Int) : EFFECTIVE_ENTRY :=
  { name := 0, offset := offset, hash := EFFECTIVE_HASH h S_HASH offset, _pad := 0,
    bounds := ⟨lo, hi⟩ }

/-- Modelled from the spec: a layout table of `struct S` (32 bytes: `f` at 0,
`t.a` at 8, `t.s` at 24). The instrumentation pass that builds the tables is
not part of the sources; the table is laid out as section 4.3 describes, with
mask 15 and each entry at the first empty slot from `key & 15` on, one entry
for each sub-object and its type, with bounds relative to the entry's offset.
The top-level entry carries the wide sentinel bounds. -/
def S_layout : List EFFECTIVE_ENTRY :=
  [ S_entry T_HASH 8 0 24,          -- slot 0: struct T at 8
    S_entry INT8_PTR_HASH 24 0 8,   -- slot 1: char * at 24 (key & 15 = 0)
    EMPTY_ENTRY, EMPTY_ENTRY, EMPTY_ENTRY, EMPTY_ENTRY, EMPTY_ENTRY,
    S_entry INT32_HASH 8 0 12,      -- slot 7: int at 8, inside a[3]
    EMPTY_ENTRY,
    S_entry S_HASH 0 (-EFFECTIVE_DELTA) EFFECTIVE_DELTA,  -- slot 9: struct S at 0
    S_entry INT32_HASH 12 (-4) 8,   -- slot 10: int at 12, inside a[3]
    S_entry INT32_HASH 16 (-8) 4,   -- slot 11: int at 16 (key & 15 = 9)
    EMPTY_ENTRY,
    S_entry FLOAT32_HASH 0 0 4,     -- slot 13: float at 0
    EMPTY_ENTRY, EMPTY_ENTRY ]

/-- The type record of `struct S`. -/
def TYPE_S : EFFECTIVE_TYPE := example_type S_HASH 32 15 S_layout
/-- Size classes of the example runtime. -/
def EXAMPLE_SIZES : List Nat := [16, 64, 256, 1024, 4096]

/-- The base of the array `new S[100]` in the example runtime: the first slot of
the class of 4096-byte elements. -/
def EXAMPLE_BASE : Nat := region_start 4

/-- The example runtime after `new S[100]` (3200 bytes of declared type
`struct S`) in the initial state. -/
def EXAMPLE_RT : RUNTIME :=
  match effective_malloc (RUNTIME.init EXAMPLE_SIZES) 3200 TYPE_S with
  | some (rt, _) => rt
  | none => RUNTIME.init EXAMPLE_SIZES

/-- The counters that `effective.h` declares under "Stats" (lines 223-232), by
name. -/
inductive STAT where
  | effective_num_nonfat_type_checks
  | effective_num_char_type_checks
  | effective_num_fast_type_checks
  | effective_num_slow_type_checks
  | effective_num_bounds_checks
  | effective_num_type_errors
  | effective_num_bounds_errors
  | effective_num_double_free_errors
  | effective_num_bad_free_errors
  | tyche_allocation_id
deriving DecidableEq, Repr, Fintype

/-- The error taxonomy of the specification (sections 4.7 and 7). -/
inductive ERROR_CLASS where
  | TypeError
  | BoundsError
  | UseAfterFreeError
  | DoubleFreeError
  | BadFreeError
  | SanityError
deriving DecidableEq, Repr, Fintype

/-- The error class that a declared counter counts, read off its name
`effective_num_<class>_errors`; `none` for the counters of checks and for
`tyche_allocation_id`. -/
def STAT.error_class : STAT → Option ERROR_CLASS
  | .effective_num_type_errors => some .TypeError
  | .effective_num_bounds_errors => some .BoundsError
  | .effective_num_double_free_errors => some .DoubleFreeError
  | .effective_num_bad_free_errors => some .BadFreeError
  | .effective_num_nonfat_type_checks => none
  | .effective_num_char_type_checks => none
  | .effective_num_fast_type_checks => none
  | .effective_num_slow_type_checks => none
  | .effective_num_bounds_checks => none
  | .tyche_allocation_id => none

/-- Reading a counter of the statistics by name. -/
def EFFECTIVE_STATS.get (st : EFFECTIVE_STATS) : STAT → Nat
  | .effective_num_nonfat_type_checks => st.effective_num_nonfat_type_checks
  | .effective_num_char_type_checks => st.effective_num_char_type_checks
  | .effective_num_fast_type_checks => st.effective_num_fast_type_checks
  | .effective_num_slow_type_checks => st.effective_num_slow_type_checks
  | .effective_num_bounds_checks => st.effective_num_bounds_checks
  | .effective_num_type_errors => st.effective_num_type_errors
  | .effective_num_bounds_errors => st.effective_num_bounds_errors
  | .effective_num_double_free_errors => st.effective_num_double_free_errors
  | .effective_num_bad_free_errors => st.effective_num_bad_free_errors
  | .tyche_allocation_id => st.tyche_allocation_id

/-- Writing a counter of the statistics by name. -/
def EFFECTIVE_STATS.set (st : EFFECTIVE_STATS) (s : STAT) (v : Nat) : EFFECTIVE_STATS :=
  match s with
  | .effective_num_nonfat_type_checks => { st with effective_num_nonfat_type_checks := v }
  | .effective_num_char_type_checks => { st with effective_num_char_type_checks := v }
  | .effective_num_fast_type_checks => { st with effective_num_fast_type_checks := v }
  | .effective_num_slow_type_checks => { st with effective_num_slow_type_checks := v }
  | .effective_num_bounds_checks => { st with effective_num_bounds_checks := v }
  | .effective_num_type_errors => { st with effective_num_type_errors := v }
  | .effective_num_bounds_errors => { st with effective_num_bounds_errors := v }
  | .effective_num_double_free_errors => { st with effective_num_double_free_errors := v }
  | .effective_num_bad_free_errors => { st with effective_num_bad_free_errors := v }
  | .tyche_allocation_id => { st with tyche_allocation_id := v }

/-- The two configuration flags of `effective.h` (lines 51-66) that select the
counting macros: `true` when the flag is defined. -/
structure EFFECTIVE_FLAGS where
  EFFECTIVE_FLAG_SINGLE_THREADED : Bool
  EFFECTIVE_FLAG_PROFILE : Bool
deriving DecidableEq, Repr

/-- The expression `(stat)++` on a `size_t` counter: the counter becomes its old
value plus one modulo `2 ^ 64`; the value of the expression is the old value. -/
def post_increment (st : EFFECTIVE_STATS) (stat : STAT) : EFFECTIVE_STATS × Nat :=
  (st.set stat ((st.get stat + 1) % WORD), st.get stat)

/-- The compiler builtin `__sync_fetch_and_add(&(stat), v)` in a sequential
execution: it adds `v` to the `size_t` counter modulo `2 ^ 64` in one step and
returns the old value. -/
def __sync_fetch_and_add (st : EFFECTIVE_STATS) (stat : STAT) (v : Nat) :
    EFFECTIVE_STATS × Nat :=
  (st.set stat ((st.get stat + v) % WORD), st.get stat)

/-- The statement `EFFECTIVE_COUNT(stat)` under a configuration:
`(stat)++` when `EFFECTIVE_FLAG_SINGLE_THREADED` is defined, otherwise
`__sync_fetch_and_add(&(stat), 1)`. -/
def EFFECTIVE_COUNT_stat (flags : EFFECTIVE_FLAGS) (st : EFFECTIVE_STATS) (stat : STAT) :
    EFFECTIVE_STATS × Nat :=
  if flags.EFFECTIVE_FLAG_SINGLE_THREADED then post_increment st stat
  else __sync_fetch_and_add st stat 1

/-- The statement `EFFECTIVE_PROFILE_COUNT(stat)` under a configuration:
`EFFECTIVE_COUNT(stat)` when `EFFECTIVE_FLAG_PROFILE` is defined, otherwise
nothing. -/
def EFFECTIVE_PROFILE_COUNT (flags : EFFECTIVE_FLAGS) (st : EFFECTIVE_STATS) (stat : STAT) :
    EFFECTIVE_STATS :=
  if flags.EFFECTIVE_FLAG_PROFILE then (EFFECTIVE_COUNT_stat flags st stat).1 else st

/-- A scalar type of C by size and alignment in bytes on x86-64 (LP64), the
target of `__builtin_ia32_crc32di`. -/
structure C_TYPE where
  size : Nat
  align : Nat
deriving DecidableEq, Repr

/-- The type `uint32_t`: four bytes, aligned to four. -/
def C_uint32_t : C_TYPE := ⟨4, 4⟩

/-- A pointer to an object: eight bytes, aligned to eight. -/
def C_pointer : C_TYPE := ⟨8, 8⟩

/-- The next multiple of `a` at or after `off`. -/
def align_up (off a : Nat) : Nat := (off + a - 1) / a * a

/-- The offsets that the members of a struct get in declaration order, each at
the next multiple of its alignment after the member before it; `off` is the
end of the members laid out so far. -/
def member_offsets : List C_TYPE → Nat → List Nat
  | [], _ => []
  | m :: ms, off => align_up off m.align :: member_offsets ms (align_up off m.align + m.size)

/-- The end of the last member of a struct laid out from `off`. -/
def members_end : List C_TYPE → Nat → Nat
  | [], off => off
  | m :: ms, off => members_end ms (align_up off m.align + m.size)

/-- The alignment of a struct: the largest alignment of a member. -/
def struct_align (ms : List C_TYPE) : Nat := ms.foldl (fun a m => max a m.align) 1

/-- The size of a struct: the end of its last member, rounded up to its
alignment. -/
def sizeof_struct (ms : List C_TYPE) : Nat := align_up (members_end ms 0) (struct_align ms)

/-- The members of `struct TYCHE_METADATA_CACHELINE` (lines 121-137) in
declaration order, by name and type. -/
def TYCHE_METADATA_CACHELINE.members : List (String × C_TYPE) :=
  [ ("CacheLine_0", C_uint32_t), ("CacheLine_1", C_uint32_t), ("CacheLine_2", C_uint32_t),
    ("CacheLine_3", C_uint32_t), ("CacheLine_4", C_uint32_t), ("CacheLine_5", C_uint32_t),
    ("CacheLine_6", C_uint32_t), ("CacheLine_7", C_uint32_t), ("CacheLine_8", C_uint32_t),
    ("CacheLine_9", C_uint32_t), ("CacheLine_10", C_uint32_t), ("CacheLine_11", C_uint32_t),
    ("CacheLine_12", C_uint32_t), ("CacheLine_13", C_uint32_t),
    ("next_cacheline", C_pointer) ]

/-- The number of elements of the array member `TypeMetadata` of
`struct TyCheSectionMetadata` (lines 139-141). -/
def TyCheSectionMetadata.TypeMetadata_length : Nat := TYCHE_NUMBER_OF_OFFSETS

/-- The size of `struct TyCheSectionMetadata`: its only member is an array of
`struct TYCHE_METADATA_CACHELINE`. -/
def TyCheSectionMetadata.sizeof : Nat :=
  TyCheSectionMetadata.TypeMetadata_length *
    sizeof_struct (TYCHE_METADATA_CACHELINE.members.map Prod.snd)

/-! ## `SDNodeFlags` and `SDNode::NodeTypeID` of `SelectionDAGNodes.h` -/

/-- `struct SDNodeFlags`: the nine one-bit flags in declaration order. -/
structure SDNodeFlags where
  NoUnsignedWrap : Bool
  NoSignedWrap : Bool
  Exact : Bool
  UnsafeAlgebra : Bool
  NoNaNs : Bool
  NoInfs : Bool
  NoSignedZeros : Bool
  AllowReciprocal : Bool
  VectorReduction : Bool
deriving DecidableEq, Repr

/-- `SDNodeFlags::intersectWith(const SDNodeFlags *Flags)`: the eight
statements `X &= Flags->X` of its body; the body has no statement for
`VectorReduction`. -/
def SDNodeFlags.intersectWith (self Flags : SDNodeFlags) : SDNodeFlags :=
  { NoUnsignedWrap := self.NoUnsignedWrap && Flags.NoUnsignedWrap
    NoSignedWrap := self.NoSignedWrap && Flags.NoSignedWrap
    Exact := self.Exact && Flags.Exact
    UnsafeAlgebra := self.UnsafeAlgebra && Flags.UnsafeAlgebra
    NoNaNs := self.NoNaNs && Flags.NoNaNs
    NoInfs := self.NoInfs && Flags.NoInfs
    NoSignedZeros := self.NoSignedZeros && Flags.NoSignedZeros
    AllowReciprocal := self.AllowReciprocal && Flags.AllowReciprocal
    VectorReduction := self.VectorReduction }

/-- `class SDNode::NodeTypeID`: `Nodes` (a vector of `uint64_t`), `Names` and
`Valid`; the three-argument constructor fills the members from its
arguments. -/
structure NodeTypeID where
  Nodes : List Nat
  Names : List String
  Valid : Bool
deriving DecidableEq, Repr

/-- The output of `ss << std::dec << n` for a `uint64_t`: decimal digits. -/
def std_dec (n : Nat) : String := Nat.repr n

/-- `NodeTypeID::dump()`: the first loop appends `Nodes[i]` in decimal and `"#"`
for `i` from 0 up, the second loop appends `Names[i]` and `"#"`; the result is
the content of the stream. -/
def NodeTypeID.dump (self : NodeTypeID) : String :=
  self.Names.foldl (fun ss name => ss ++ name ++ "#")
    (self.Nodes.foldl (fun ss n => ss ++ std_dec n ++ "#") "")

/-- `NodeTypeID::isValid()`. -/
def NodeTypeID.isValid (self : NodeTypeID) : Bool := self.Valid

/-- `NodeTypeID::getNodesVector()`. -/
def NodeTypeID.getNodesVector (self : NodeTypeID) : List Nat := self.Nodes

/-- `NodeTypeID::getNamesVector()`. -/
def NodeTypeID.getNamesVector (self : NodeTypeID) : List String := self.Names

/-- `NodeTypeID::operator=`: the three members are copied from the argument
(assignment of an object to itself returns at once, leaving the same value). -/
def NodeTypeID.assign (_self mi_node : NodeTypeID) : NodeTypeID :=
  { Nodes := mi_node.Nodes, Valid := mi_node.Valid, Names := mi_node.Names }

/-- `class SDNode` as far as its constructor fills it with values of its
arguments or constants: `NodeType`, `NodeId`, `NumOperands`, `NumValues`,
`IROrder` and the member `NodeTID` added for the type id. -/
structure SDNode where
  NodeType : Nat
  NodeId : Int
  NumOperands : Nat
  NumValues : Nat
  IROrder : Nat
  NodeTID : NodeTypeID
deriving DecidableEq, Repr

/-- The constructor `SDNode(unsigned Opc, unsigned Order, DebugLoc dl, SDVTList
VTs)`: `NodeId(-1)`, `NumOperands(0)`, and
`NodeTID(SDNode::NodeTypeID(std::vector<uint64_t>(), std::vector<std::string>(),
false))`. -/
def SDNode.new (Opc Order NumVTs : Nat) : SDNode :=
  { NodeType := Opc, NodeId := -1, NumOperands := 0, NumValues := NumVTs, IROrder := Order
    NodeTID := ⟨[], [], false⟩ }

/-- `SDNode::setTypeID(NodeTypeID& tid)`: `NodeTID = tid`. -/
def SDNode.setTypeID (self : SDNode) (tid : NodeTypeID) : SDNode :=
  { self with NodeTID := self.NodeTID.assign tid }

/-- `SDNode::getTypeID()`: a copy of `NodeTID`. -/
def SDNode.getTypeID (self : SDNode) : NodeTypeID := self.NodeTID

/-- Concatenation of a list of strings in order. -/
def concat_all : List String → String
  | [] => ""
  | s :: rest => s ++ concat_all rest

/-- The format that the specification gives for `dump()`: `decimal(n) + "#"`
for each node in order, then `name + "#"` for each name in order. -/
def dump_format (nodes : List Nat) (names : List String) : String :=
  concat_all (nodes.map (fun n => Nat.repr n ++ "#")) ++
    concat_all (names.map (fun name => name ++ "#"))

/-! ## `test/merge.cpp` -/

/-- `class TypeNode`: `nodeNo`, `title`, `name`, `typeID` and the children
`childs`; a tree of nodes, each child list holding the nodes it points to. -/
inductive TypeNode where
  | mk (nodeNo : Int) (title : String) (name : String) (typeID : Int) (childs : List TypeNode)
deriving Repr

/-- The member `nodeNo`. -/
def TypeNode.nodeNo : TypeNode → Int
  | .mk n _ _ _ _ => n

/-- The member `title`. -/
def TypeNode.title : TypeNode → String
  | .mk _ t _ _ _ => t

/-- The member `name`. -/
def TypeNode.name : TypeNode → String
  | .mk _ _ n _ _ => n

/-- The member `typeID`. -/
def TypeNode.typeID : TypeNode → Int
  | .mk _ _ _ i _ => i

/-- The member `childs`. -/
def TypeNode.childs : TypeNode → List TypeNode
  | .mk _ _ _ _ cs => cs

/-- The constructor `TypeNode(std::string name)`: it sets `name` to its argument
and `typeID` to -1; `title` and `childs` are default-constructed (empty), and
`nodeNo` is left uninitialised, its indeterminate value being the parameter
`uninit`. -/
def TypeNode.new (name : String) (uninit : Int) : TypeNode :=
  .mk uninit "" name (-1) []

mutual
/-- The node that one round of the loop of `TypeNode::deepCopy` creates for a
child of the source: `new TypeNode(child->title)`, followed by
`newChild->deepCopy(child)`. -/
def deepCopy_node (uninit : Int) : TypeNode → TypeNode
  | .mk _ title _ _ childs => .mk uninit "" title (-1) (deepCopy_childs uninit childs)
/-- The loop of `TypeNode::deepCopy` over `source->childs`: the new children in
the order of `push_back`. -/
def deepCopy_childs (uninit : Int) : List TypeNode → List TypeNode
  | [] => []
  | child :: rest => deepCopy_node uninit child :: deepCopy_childs uninit rest
end

/-- `TypeNode::deepCopy(TypeNode *source)`: the children of `this` are cleared
and replaced by copies of the children of the source. -/
def TypeNode.deepCopy (self source : TypeNode) (uninit : Int) : TypeNode :=
  .mk self.nodeNo self.title self.name self.typeID (deepCopy_childs uninit source.childs)

/-- `std::string::npos` on a 64-bit target. -/
def npos : Nat := 2 ^ 64 - 1

/-- The bytes of a `std::string`: the UTF-8 encoding of its characters, one byte
for each ASCII character. -/
def std_bytes (s : String) : List UInt8 := s.data.flatMap String.utf8EncodeChar

/-- `str.length()`: the number of bytes. -/
def std_length (s : String) : Nat := (std_bytes s).length

/-- `str.find(pat)` from position `pos` on, over the bytes: the position of the
first occurrence of `pat`, or `npos` when there is none. -/
def find_from (pat : List UInt8) : List UInt8 → Nat → Nat
  | [], pos => if pat.isPrefixOf [] then pos else npos
  | c :: s, pos => if pat.isPrefixOf (c :: s) then pos else find_from pat s (pos + 1)

/-- `str.find(pat)`. -/
def std_find (str pat : String) : Nat := find_from (std_bytes pat) (std_bytes str) 0

/-- The path that `findFiles` builds for a directory entry:
`buf = path; buf += "/" + (std::string)ent->d_name`. -/
def findFiles_path (path d_name : String) : String := path ++ ("/" ++ d_name)

/-- The extension filter of `main`:
`fileName.find(extension) == fileName.length() - 4` with `extension = ".dot"`,
the subtraction taken in `size_t` (it wraps below 4). -/
def main_extension_filter (fileName : String) : Bool :=
  std_find fileName ".dot" == (std_length fileName + 2 ^ 64 - 4) % 2 ^ 64

/-- The path ends with the four characters `.dot`. -/
def ends_with_dot (fileName : String) : Bool :=
  (std_bytes ".dot").isSuffixOf (std_bytes fileName)

/-- The test `title.find("Pointer:") == 0`. -/
def is_Pointer (title : String) : Bool := std_find title "Pointer:" == 0

/-- The test `title.find("Array:") == 0`. -/
def is_Array (title : String) : Bool := std_find title "Array:" == 0

mutual
/-- `proneNew(TypeNode *root)`: the new tree and the returned string. A
`Pointer:` or `Array:` node with `childs.size() != 1` only prints a message and
flows off the end of the function without a `return`, which is undefined
behaviour (`none`). -/
def proneNew : TypeNode → Option (TypeNode × String)
  | .mk nodeNo title name typeID childs =>
    if is_Pointer title then
      match childs with
      | [child] =>
        match proneNew child with
        | some (child1, s) => some (.mk nodeNo (s ++ "*") name typeID [child1], s ++ "*")
        | none => none
      | _ => none
    else if is_Array title then
      match childs with
      | [child] =>
        match proneNew child with
        | some (child1, s) => some (.mk nodeNo (s ++ "[]") name typeID [child1], s ++ "[]")
        | none => none
      | _ => none
    else
      match proneNew_childs childs with
      | some childs1 => some (.mk nodeNo title name typeID childs1, title)
      | none => none
/-- The loop `for (auto child: root->childs) proneNew(child);` of `proneNew`,
whose returned strings are dropped. -/
def proneNew_childs : List TypeNode → Option (List TypeNode)
  | [] => some []
  | child :: rest =>
    match proneNew child with
    | some (child1, _) =>
      match proneNew_childs rest with
      | some rest1 => some (child1 :: rest1)
      | none => none
    | none => none
end

mutual
/-- The function `f` of the specification of `proneNew`, on the original
titles: `f(child) + "*"` for a `Pointer:` node, `f(child) + "[]"` for an
`Array:` node, the title otherwise. -/
def collapse : TypeNode → String
  | .mk _ title _ _ childs =>
    if is_Pointer title then collapse_first childs ++ "*"
    else if is_Array title then collapse_first childs ++ "[]"
    else title
/-- The function `f` at the first child of a list (the only child of a wrapper
node). -/
def collapse_first : List TypeNode → String
  | [] => ""
  | child :: _ => collapse child
end

mutual
/-- The tree in which every node has the title `f(node)` and everything else is
as before. -/
def retitle : TypeNode → TypeNode
  | .mk nodeNo title name typeID childs =>
    .mk nodeNo (collapse (.mk nodeNo title name typeID childs)) name typeID
      (retitle_childs childs)
/-- The list of trees retitled one by one. -/
def retitle_childs : List TypeNode → List TypeNode
  | [] => []
  | child :: rest => retitle child :: retitle_childs rest
end

mutual
/-- Every node of the tree whose title starts with `Pointer:` or `Array:` has
exactly one child. -/
def wrappers_single : TypeNode → Bool
  | .mk _ title _ _ childs =>
    (!(is_Pointer title || is_Array title) || childs.length == 1)
      && wrappers_single_childs childs
/-- Every tree of the list satisfies `wrappers_single`. -/
def wrappers_single_childs : List TypeNode → Bool
  | [] => true
  | child :: rest => wrappers_single child && wrappers_single_childs rest
end

/-- A `std::unordered_map<std::string, int>` as the partial function it
represents: `none` where `find` gives `end()`. -/
abbrev TypeMap := String → Option Int

/-- The empty map. -/
def TypeMap.empty : TypeMap := fun _ => none

/-- The assignment `typeMap[key] = value`. -/
def TypeMap.set (m : TypeMap) (key : String) (value : Int) : TypeMap :=
  fun k => if k = key then some value else m k

/-- The assignment `node->typeID = v`. -/
def TypeNode.setTypeID : TypeNode → Int → TypeNode
  | .mk nodeNo title name _ childs, v => .mk nodeNo title name v childs

/-- The variables of `main` that the merge loop (lines 443-469) works on:
`typeSet`, `ID`, the children of `finalRoot`, and `v`. The type `int` is taken
as unbounded. -/
structure MergeState where
  typeSet : TypeMap
  ID : Int
  finalRoot_childs : List TypeNode
  v : List TypeNode

/-- The state before the merge loop: `typeSet` empty, `ID = 0`, `finalRoot`
without children, `v` empty. -/
def MergeState.init : MergeState :=
  { typeSet := TypeMap.empty, ID := 0, finalRoot_childs := [], v := [] }

/-- `INT_MAX` of the 32-bit `int`. -/
def INT_MAX : Int := 2147483647

/-- The `int` that holds the mathematical result `x`: 32 bits in two's
complement. Overflow of a signed `int` is undefined in C++; the compiled
program wraps around, and the embedding follows it. -/
def int32 (x : Int) : Int := (x + 2147483648) % 4294967296 - 2147483648

mutual
/-- `prone2(TypeNode *root, typeMap, ID)`: the tree after the call, with the new
`typeMap` and `ID` (both passed by reference). The call writes nothing of
`root` itself, only of the nodes below it. -/
def prone2 : TypeNode → TypeMap → Int → TypeNode × TypeMap × Int
  | .mk nodeNo title name typeID childs, typeMap, ID =>
    match prone2_childs childs typeMap ID with
    | (childs1, typeMap1, ID1) => (.mk nodeNo title name typeID childs1, typeMap1, ID1)
/-- The loop of `prone2` over `root->childs`. A child whose title the map does
not have gets `typeID = ++ID` (an `int` increment) and the map gets the title
with that `ID`; a child whose title the map has gets the `typeID` of the map;
in both branches `prone2` then runs on the child. The recursive call reads and
writes nothing of the `typeID` of the child, so the write of `typeID` is
applied to its result. -/
def prone2_childs : List TypeNode → TypeMap → Int → List TypeNode × TypeMap × Int
  | [], typeMap, ID => ([], typeMap, ID)
  | child :: rest, typeMap, ID =>
    match typeMap child.title with
    | none =>
      match prone2 child (typeMap.set child.title (int32 (ID + 1))) (int32 (ID + 1)) with
      | (child1, typeMap1, ID1) =>
        match prone2_childs rest typeMap1 ID1 with
        | (rest1, typeMap2, ID2) => (child1.setTypeID (int32 (ID + 1)) :: rest1, typeMap2, ID2)
    | some v =>
      match prone2 child typeMap ID with
      | (child1, typeMap1, ID1) =>
        match prone2_childs rest typeMap1 ID1 with
        | (rest1, typeMap2, ID2) => (child1.setTypeID v :: rest1, typeMap2, ID2)
end

mutual
/-- The proper descendants of a node, in the order in which `prone2` reaches
them. -/
def descendants : TypeNode → List TypeNode
  | .mk _ _ _ _ childs => descendants_childs childs
/-- The nodes of a list of trees: each tree, followed by its proper
descendants. -/
def descendants_childs : List TypeNode → List TypeNode
  | [] => []
  | child :: rest => child :: (descendants child ++ descendants_childs rest)
end

/-- The map is injective and all its values lie in `1..ID`. -/
def TypeMap.numbered (m : TypeMap) (ID : Int) : Prop :=
  (∀ s t v, m s = some v → m t = some v → s = t) ∧ (∀ s v, m s = some v → 1 ≤ v ∧ v ≤ ID)

/-- The map `m1` extends the map `m`. -/
def TypeMap.le (m m1 : TypeMap) : Prop := ∀ s v, m s = some v → m1 s = some v

/-- What a run of `prone2` from the map `m` and the counter `ID` establishes, for
the nodes `ds` it has numbered (originally `orig`), the new map `m1` and the new
counter `ID1`, which has advanced by at most one for each node. -/
def prone2_post (m : TypeMap) (ID : Int) (orig ds : List TypeNode) (m1 : TypeMap) (ID1 : Int) :
    Prop :=
  m1.numbered ID1 ∧ m.le m1 ∧ ID ≤ ID1 ∧ (∀ d ∈ ds, m1 d.title = some d.typeID) ∧
    ds.map TypeNode.title = orig.map TypeNode.title ∧ ID1 ≤ ID + orig.length

/-- A `TypeNode` object in memory: its members, with `childs` as the addresses
of the objects that its elements point to. -/
structure TypeNodeObj where
  nodeNo : Int
  title : String
  name : String
  typeID : Int
  childs : List Nat

/-- The memory that `printDAG` works on: the `TypeNode` object at each
address. -/
abbrev Memory := Nat → TypeNodeObj

/-- The shape of a tree in memory: the address of a node and the shapes of its
children. -/
inductive Shape where
  | mk (addr : Nat) (subs : List Shape)

/-- The address of the root of a shape. -/
def Shape.addr : Shape → Nat
  | .mk a _ => a

/-- The shapes below the root of a shape. -/
def Shape.subs : Shape → List Shape
  | .mk _ s => s

mutual
/-- The addresses of all nodes of a shape. -/
def Shape.addrs : Shape → List Nat
  | .mk a subs => a :: addrs_list subs
/-- The addresses of all nodes of a list of shapes. -/
def addrs_list : List Shape → List Nat
  | [] => []
  | t :: ts => t.addrs ++ addrs_list ts
end

mutual
/-- The memory holds the shape: the children of the object at the address of
each node are the addresses of the children of the node, in their order. -/
def represents (mem : Memory) : Shape → Prop
  | .mk a subs => (mem a).childs = subs.map Shape.addr ∧ represents_list mem subs
/-- The memory holds every shape of the list. -/
def represents_list (mem : Memory) : List Shape → Prop
  | [] => True
  | t :: ts => represents mem t ∧ represents_list mem ts
end

/-- A tree for C23: a structure `S` with an `int`, a `char*` over `char`, and a
second `int`, next to a top-level `char`. -/
def C23_tree : TypeNode :=
  .mk 0 "root" "root" 0
    [.mk 0 "S" "node1" (-1)
      [.mk 0 "int" "node2" (-1) [],
       .mk 0 "char*" "node3" (-1) [.mk 0 "char" "node4" (-1) []],
       .mk 0 "int" "node5" (-1) []],
     .mk 0 "char" "node6" (-1) []]

/-- The value of the magic expression: `floor ((2 ^ 63 - 1) / s) + 1`. -/
theorem EFFECTIVE_MAGIC_eq (s : Nat) : EFFECTIVE_MAGIC s = (2 ^ 63 - 1) / s + 1 := by
  unfold EFFECTIVE_MAGIC SIZE_MAX WORD EFFECTIVE_RADIX
  have h1 : (2 ^ 64 - 1 - (2 ^ 64 - 1) * 2 ^ 63 % 2 ^ 64) = 2 ^ 63 - 1 := by norm_num
  rw [h1]
  apply Nat.mod_eq_of_lt
  have : (2 ^ 63 - 1) / s ≤ 2 ^ 63 - 1 := Nat.div_le_self _ _
  omega

/-- The product of a size with its magic lies in `[2 ^ 63, 2 ^ 63 + s)`. -/
theorem magic_mul_bounds (s : Nat) (hs : 1 ≤ s) :
    2 ^ 63 ≤ s * EFFECTIVE_MAGIC s ∧ s * EFFECTIVE_MAGIC s ≤ 2 ^ 63 - 1 + s := by
  rw [EFFECTIVE_MAGIC_eq]
  have hspos : 0 < s := hs
  constructor
  · have := Nat.lt_mul_div_succ (2 ^ 63 - 1) hspos
    omega
  · have := Nat.mul_div_le (2 ^ 63 - 1) s
    rw [Nat.mul_add]; omega

/-- The fixed-point quotient of `s * q + r` (with `r < s`) is `q` as soon as the
accumulated rounding error stays below one unit. -/
theorem reciprocal_quotient (s q r : Nat) (hs : 1 ≤ s)
    (herr : q * (s * EFFECTIVE_MAGIC s - 2 ^ 63) + r * EFFECTIVE_MAGIC s < 2 ^ 63) :
    (s * q + r) * EFFECTIVE_MAGIC s / 2 ^ EFFECTIVE_RADIX = q := by
  obtain ⟨hm1, -⟩ := magic_mul_bounds s hs
  generalize EFFECTIVE_MAGIC s = m at hm1 herr ⊢
  unfold EFFECTIVE_RADIX
  have e1 : (s * q + r) * m = q * (s * m) + r * m := by ring
  have e0 : q * (s * m) = q * 2 ^ 63 + q * (s * m - 2 ^ 63) := by
    have h : 2 ^ 63 + (s * m - 2 ^ 63) = s * m := by omega
    rw [← Nat.mul_add, h]
  apply Nat.div_eq_of_lt_le
  · rw [e1, e0]; omega
  · rw [e1, e0, Nat.succ_mul]; omega

/-- The fixed-point quotient is exact for every offset `x` with
`s * (x + s) ≤ 2 ^ 63`. -/
theorem reciprocal_exact (s x : Nat) (hs : 1 ≤ s) (hx : s * (x + s) ≤ 2 ^ 63) :
    x * EFFECTIVE_MAGIC s / 2 ^ EFFECTIVE_RADIX = x / s := by
  have hspos : 0 < s := hs
  obtain ⟨hm1, hm2⟩ := magic_mul_bounds s hs
  have hq := Nat.div_add_mod x s
  have hr : x % s < s := Nat.mod_lt x hspos
  have key := reciprocal_quotient s (x / s) (x % s) hs
  rw [hq] at key
  apply key
  generalize EFFECTIVE_MAGIC s = m at hm1 hm2 ⊢
  have hxm : x + s ≤ m := by
    have : s * (x + s) ≤ s * m := le_trans hx hm1
    exact Nat.le_of_mul_le_mul_left this hspos
  generalize x / s = q at hq ⊢
  generalize x % s = r at hq hr ⊢
  have e2 : r * m ≤ (s - 1) * m := Nat.mul_le_mul_right m (by omega)
  have e3 : (s - 1) * m + m = s * m := by
    have h : s - 1 + 1 = s := by omega
    calc (s - 1) * m + m = (s - 1 + 1) * m := by ring
      _ = s * m := by rw [h]
  have e4 : q * (s * m - 2 ^ 63) ≤ q * (s - 1) := Nat.mul_le_mul_left q (by omega)
  have e5 : q * (s - 1) + q = s * q := by
    have h : s - 1 + 1 = s := by omega
    calc q * (s - 1) + q = q * (s - 1 + 1) := by ring
      _ = s * q := by rw [h]; ring
  omega

/-- The counter macro never leaves a counter unchanged. -/
theorem EFFECTIVE_COUNT_ne (x : Nat) : EFFECTIVE_COUNT x ≠ x := by
  unfold EFFECTIVE_COUNT WORD
  omega

/-- The bounds check leaves the state alone exactly for an access inside the
bounds. -/
theorem bounds_check_accepts_iff (rt : RUNTIME) (bounds : EFFECTIVE_BOUNDS) (ptr : Nat)
    (lb ub : Int) :
    effective_bounds_check rt bounds ptr lb ub = rt ↔ (lb ≥ bounds.lo ∧ ub ≤ bounds.hi) := by
  unfold effective_bounds_check
  by_cases h : lb ≥ bounds.lo ∧ ub ≤ bounds.hi
  · simp [h]
  · rw [if_neg h]
    refine ⟨fun heq => ?_, fun h2 => absurd h2 h⟩
    have h2 := congrArg (fun r => r.stats.effective_num_bounds_errors) heq
    exact absurd h2 (EFFECTIVE_COUNT_ne _)

/-- The registry walk leaves the table of size classes alone. -/
theorem registry_walk_sizes (rt : RUNTIME) (base ptr : Nat) (u : EFFECTIVE_TYPE) :
    (registry_walk rt base ptr u).1.sizes = rt.sizes := by
  unfold registry_walk
  simp only
  split
  · rfl
  · split <;> rfl

/-- A registry walk that reports no type error has validated the type: it has
written the expected hash into the tag of the accessed granule, kept the slot
ALLOCATED if it was, and counted nothing. -/
theorem registry_walk_ok (rt : RUNTIME) (base ptr : Nat) (u : EFFECTIVE_TYPE)
    (hok : (registry_walk rt base ptr u).1.stats.effective_num_type_errors =
      rt.stats.effective_num_type_errors) :
    (registry_walk rt base ptr u).1.stats = rt.stats ∧
    ((registry_walk rt base ptr u).1.slots base).state = (rt.slots base).state ∧
    ((registry_walk rt base ptr u).1.slots base).cache (granule (ptr - base)) =
      some u.hash := by
  unfold registry_walk at hok ⊢
  cases ht : (rt.slots base).metadata.type with
  | none =>
    simp only [ht] at hok
    exact absurd hok (EFFECTIVE_COUNT_ne _)
  | some t =>
    simp only [ht] at hok ⊢
    cases he : lookup t u.hash (element_offset t (ptr - base)) with
    | none =>
      simp only [he] at hok
      exact absurd hok (EFFECTIVE_COUNT_ne _)
    | some e =>
      simp [table_set, cache_write]

/-- A check of a pointer into an ALLOCATED slot whose granule does not carry the
expected hash is a registry walk, whatever a hit would return. -/
theorem type_check_miss (hit : RUNTIME → Nat → EFFECTIVE_TYPE → EFFECTIVE_BOUNDS)
    (rt : RUNTIME) (ptr : Nat) (u : EFFECTIVE_TYPE) (r : RESOLVED)
    (hres : resolve rt.sizes ptr = some r) (hst : (rt.slots r.base).state = .ALLOCATED)
    (htag : (rt.slots r.base).cache (granule (ptr - r.base)) ≠ some u.hash) :
    effective_type_check hit rt ptr u = registry_walk (count_slow rt) r.base ptr u := by
  unfold effective_type_check
  rw [hres]
  simp only [hst, if_neg htag]

/-- A check of a pointer into an ALLOCATED slot whose granule carries the
expected hash is a hit: it counts one fast check and nothing else. -/
theorem type_check_hit (hit : RUNTIME → Nat → EFFECTIVE_TYPE → EFFECTIVE_BOUNDS)
    (rt : RUNTIME) (ptr : Nat) (u : EFFECTIVE_TYPE) (r : RESOLVED)
    (hres : resolve rt.sizes ptr = some r) (hst : (rt.slots r.base).state = .ALLOCATED)
    (htag : (rt.slots r.base).cache (granule (ptr - r.base)) = some u.hash) :
    effective_type_check hit rt ptr u = (count_fast rt, hit rt ptr u) := by
  unfold effective_type_check
  rw [hres]
  simp only [hst, if_pos htag]

/-- A heap check that reports neither a type error nor a use after free leaves
the tag of the accessed granule at the expected hash, so that the same check
repeated at once is a hit: it does not walk the registry again (the slow-path
counter stays, the fast-path counter advances by one step). -/
theorem repeated_check_is_hit (hit : RUNTIME → Nat → EFFECTIVE_TYPE → EFFECTIVE_BOUNDS)
    (rt : RUNTIME) (ptr : Nat) (u : EFFECTIVE_TYPE) (r : RESOLVED)
    (hres : resolve rt.sizes ptr = some r)
    (hok : (effective_type_check hit rt ptr u).1.stats.effective_num_type_errors =
      rt.stats.effective_num_type_errors)
    (hlive : (effective_type_check hit rt ptr u).1.num_use_after_free_errors =
      rt.num_use_after_free_errors) :
    effective_type_check hit (effective_type_check hit rt ptr u).1 ptr u =
      (count_fast (effective_type_check hit rt ptr u).1,
       hit (effective_type_check hit rt ptr u).1 ptr u) := by
  cases hst : (rt.slots r.base).state with
  | FREE =>
    have h1 : effective_type_check hit rt ptr u = (effective_type_error rt, zero_width ptr) := by
      unfold effective_type_check; rw [hres]; simp only [hst]
    rw [h1] at hok
    exact absurd hok (EFFECTIVE_COUNT_ne _)
  | FREED =>
    have h1 : effective_type_check hit rt ptr u =
        (effective_use_after_free_error rt, zero_width ptr) := by
      unfold effective_type_check; rw [hres]; simp only [hst]
    rw [h1] at hlive
    exact absurd hlive (EFFECTIVE_COUNT_ne _)
  | ALLOCATED =>
    by_cases htag : (rt.slots r.base).cache (granule (ptr - r.base)) = some u.hash
    · have h1 := type_check_hit hit rt ptr u r hres hst htag
      rw [h1]
      exact type_check_hit hit (count_fast rt) ptr u r hres hst htag
    · have h1 := type_check_miss hit rt ptr u r hres hst htag
      rw [h1] at hok ⊢
      have hok2 : (registry_walk (count_slow rt) r.base ptr u).1.stats.effective_num_type_errors
          = (count_slow rt).stats.effective_num_type_errors := hok
      obtain ⟨-, hstate, hcache⟩ := registry_walk_ok (count_slow rt) r.base ptr u hok2
      have hsz := registry_walk_sizes (count_slow rt) r.base ptr u
      have hres2 : resolve (registry_walk (count_slow rt) r.base ptr u).1.sizes ptr = some r := by
        rw [hsz]; exact hres
      have hst2 : ((registry_walk (count_slow rt) r.base ptr u).1.slots r.base).state
          = SLOT_STATE.ALLOCATED := by
        rw [hstate]; exact hst
      exact type_check_hit hit _ ptr u r hres2 hst2 hcache

/-- A check of a pointer into a FREED slot reports a use after free and returns
zero-width bounds, whatever the expected type. -/
theorem type_check_freed_slot (hit : RUNTIME → Nat → EFFECTIVE_TYPE → EFFECTIVE_BOUNDS)
    (rt : RUNTIME) (ptr : Nat) (u : EFFECTIVE_TYPE) (r : RESOLVED)
    (hres : resolve rt.sizes ptr = some r) (hst : (rt.slots r.base).state = .FREED) :
    effective_type_check hit rt ptr u = (effective_use_after_free_error rt, zero_width ptr) := by
  unfold effective_type_check
  rw [hres]
  simp only [hst]

/-! ## Claims -/

/-- C1: `effective_bounds_check` accepts the access `[lb, ub)` (leaves the state
as it is, no error reported) exactly when `lb >= bounds.lower` and
`ub <= bounds.upper`; otherwise it reports a bounds error: the bounds-error
counter advances by one `EFFECTIVE_COUNT` step and nothing else changes. -/
theorem C1_bounds_check_accepts_iff (rt : RUNTIME) (bounds : EFFECTIVE_BOUNDS) (ptr : Nat)
    (lb ub : Int) :
    (effective_bounds_check rt bounds ptr lb ub = rt ↔ (lb ≥ bounds.lo ∧ ub ≤ bounds.hi)) ∧
    (¬ (lb ≥ bounds.lo ∧ ub ≤ bounds.hi) →
      effective_bounds_check rt bounds ptr lb ub = effective_bounds_error rt ∧
      (effective_bounds_check rt bounds ptr lb ub).stats.effective_num_bounds_errors =
        EFFECTIVE_COUNT rt.stats.effective_num_bounds_errors) := by
  refine ⟨bounds_check_accepts_iff rt bounds ptr lb ub, fun h => ?_⟩
  unfold effective_bounds_check
  rw [if_neg h]
  exact ⟨rfl, rfl⟩

/-- C1, the array of five elements of size four with bounds `[0, 20)`: the
range `[16, 20)` is accepted, the range `[20, 24)` is a bounds error. -/
theorem C1_bounds_check_array_of_five :
    (effective_bounds_check (RUNTIME.init EXAMPLE_SIZES) ⟨0, 20⟩ 0 16 20
        = RUNTIME.init EXAMPLE_SIZES) ∧
    (effective_bounds_check (RUNTIME.init EXAMPLE_SIZES) ⟨0, 20⟩ 0 20 24
        = effective_bounds_error (RUNTIME.init EXAMPLE_SIZES) ∧
     (effective_bounds_check (RUNTIME.init EXAMPLE_SIZES) ⟨0, 20⟩ 0 20
        24).stats.effective_num_bounds_errors = 1) :=
  ⟨(C1_bounds_check_accepts_iff (RUNTIME.init EXAMPLE_SIZES) ⟨0, 20⟩ 0 16 20).1.2 (by decide),
   ((C1_bounds_check_accepts_iff (RUNTIME.init EXAMPLE_SIZES) ⟨0, 20⟩ 0 20 24).2
      (by decide)).1,
   by decide⟩

/-- The layout table of `struct S` keeps the invariant of section 3: every live
entry is found by probing its own hash at its own offset, within the probe
bound. -/
theorem S_layout_round_trip :
    ∀ e ∈ S_layout, e.hash ≠ EFFECTIVE_ENTRY_EMPTY_HASH →
      probe S_layout e.hash e.offset EFFECTIVE_MAX_PROBE (e.hash &&& TYPE_S.mask) = some e := by
  decide

/-- C4 on the predefined `EFFECTIVE_TYPE_FREE`: the only slot of its layout has
the `hash` member 0, not the empty sentinel, so it is a live entry, and the
lookup of the expected type hash `0xAB63C4D0ECB45D36` at offset 0, whose probe
key is 0, is a hit on that slot. -/
theorem C4_free_type_lookup_hits :
    (∀ e ∈ EFFECTIVE_TYPE_FREE.layout, e.hash ≠ EFFECTIVE_ENTRY_EMPTY_HASH) ∧
    EFFECTIVE_HASH 0xAB63C4D0ECB45D36 EFFECTIVE_TYPE_FREE.hash2 0 = 0 ∧
    lookup EFFECTIVE_TYPE_FREE 0xAB63C4D0ECB45D36 0 =
      some { name := 2 ^ 64 - 1, offset := 0, hash := 0, _pad := 0, bounds := ⟨0, 0⟩ } := by
  decide

/-- C5: for a pointer `p` that is the base of an ALLOCATED slot, the second of
two consecutive calls `free(p)` reports a double free and does nothing else:
the double-free counter advances by one `EFFECTIVE_COUNT` step, the metadata
table and the free lists stay as the first call left them (the slot FREED), and
a later allocation in the class of `p` takes the slot back through the ordinary
FREED to ALLOCATED transition. -/
theorem C5_double_free (rt : RUNTIME) (p c E : Nat)
    (hres : resolve rt.sizes p = some ⟨c, p, E⟩)
    (hst : (rt.slots p).state = .ALLOCATED) :
    effective_free (effective_free rt p) p = effective_double_free_error (effective_free rt p) ∧
    (effective_free (effective_free rt p) p).stats.effective_num_double_free_errors =
      EFFECTIVE_COUNT (effective_free rt p).stats.effective_num_double_free_errors ∧
    (effective_free (effective_free rt p) p).slots = (effective_free rt p).slots ∧
    (effective_free (effective_free rt p) p).free_list = (effective_free rt p).free_list ∧
    (effective_free rt p).slots p = freed_slot (rt.slots p) ∧
    (∀ (size : Nat) (t : EFFECTIVE_TYPE), size_class rt.sizes size = some c →
      ∃ rt4, effective_malloc (effective_free (effective_free rt p) p) size t =
          some (rt4, ⟨(p : Int), (p : Int) + (size : Int)⟩) ∧
        rt4.slots p = allocated_slot (freed_slot (rt.slots p)) size t ∧
        rt4.free_list c = rt.free_list c) := by
  have h1 : effective_free rt p =
      { rt with
          free_list := table_set rt.free_list c (p :: rt.free_list c)
          slots := table_set rt.slots p (freed_slot (rt.slots p)) } := by
    unfold effective_free
    rw [hres]
    simp only [ne_eq, not_true_eq_false, if_false, hst]
  have h2 : effective_free (effective_free rt p) p =
      effective_double_free_error (effective_free rt p) := by
    rw [h1]
    unfold effective_free
    simp only [hres, ne_eq, not_true_eq_false, if_false, table_set, if_true, freed_slot]
  refine ⟨h2, ?_, ?_, ?_, ?_, ?_⟩
  · rw [h2]; rfl
  · rw [h2]; rfl
  · rw [h2]; rfl
  · rw [h1]; simp [table_set]
  · intro size t hcls
    rw [h2, h1]
    unfold effective_malloc
    simp only [effective_double_free_error, hcls, table_set, if_true]
    refine ⟨_, rfl, ?_, ?_⟩
    · simp [table_set]
    · simp [table_set]

/-- C5 in the example of the paper: `delete[] s` twice on the array of the
example counts one double free. -/
theorem C5_double_free_witness :
    resolve EXAMPLE_RT.sizes EXAMPLE_BASE = some ⟨4, EXAMPLE_BASE, 4096⟩ ∧
    (EXAMPLE_RT.slots EXAMPLE_BASE).state = .ALLOCATED ∧
    (effective_free (effective_free EXAMPLE_RT EXAMPLE_BASE)
        EXAMPLE_BASE).stats.effective_num_double_free_errors =
      EFFECTIVE_COUNT (effective_free EXAMPLE_RT EXAMPLE_BASE).stats.effective_num_double_free_errors ∧
    (effective_free (effective_free EXAMPLE_RT EXAMPLE_BASE)
        EXAMPLE_BASE).stats.effective_num_double_free_errors = 1 ∧
    (effective_free EXAMPLE_RT EXAMPLE_BASE).stats.effective_num_double_free_errors = 0 :=
  ⟨by decide, by decide,
   (C5_double_free EXAMPLE_RT EXAMPLE_BASE 4 4096 (by decide) (by decide)).2.1,
   by decide, by decide⟩

/-- C7 fails as stated: for the element size `2 ^ 32 - 1` and the offset
`2 ^ 33 - 3`, both inside the claimed ranges, the fixed-point quotient is 2
while the integer quotient is 1. -/
theorem C7_magic_inexact :
    1 ≤ 2 ^ 32 - 1 ∧ 2 ^ 32 - 1 < 2 ^ 32 ∧ ((2 ^ 33 - 3 : Nat) : Int) < EFFECTIVE_DELTA ∧
    (2 ^ 33 - 3) * EFFECTIVE_MAGIC (2 ^ 32 - 1) / 2 ^ EFFECTIVE_RADIX = 2 ∧
    (2 ^ 33 - 3) / (2 ^ 32 - 1) = 1 := by
  refine ⟨by norm_num, by norm_num, by decide, ?_, by norm_num⟩
  rw [EFFECTIVE_MAGIC_eq]
  unfold EFFECTIVE_RADIX
  norm_num

/-- C7 as amended: for every element size `s >= 1` and every offset `x` with
`s * (x + s) <= 2 ^ 63`, the fixed-point quotient
`floor (x * EFFECTIVE_MAGIC(s) / 2 ^ EFFECTIVE_RADIX)` on the full-width
product equals `floor (x / s)`. -/
theorem C7_magic_exact_in_range (s x : Nat) (hs : 1 ≤ s) (hx : s * (x + s) ≤ 2 ^ 63) :
    x * EFFECTIVE_MAGIC s / 2 ^ EFFECTIVE_RADIX = x / s :=
  reciprocal_exact s x hs hx

/-- C7 as amended, at the largest size that is safe for the whole window: the
size `2 ^ 28` and the last offset below `EFFECTIVE_DELTA`. -/
theorem C7_magic_exact_witness :
    1 ≤ 2 ^ 28 ∧ 2 ^ 28 * ((2 ^ 34 - 1) + 2 ^ 28) ≤ 2 ^ 63 ∧
    (2 ^ 34 - 1) * EFFECTIVE_MAGIC (2 ^ 28) / 2 ^ EFFECTIVE_RADIX = (2 ^ 34 - 1) / 2 ^ 28 :=
  ⟨by norm_num, by norm_num,
   C7_magic_exact_in_range (2 ^ 28) (2 ^ 34 - 1) (by norm_num) (by norm_num)⟩

/-- C8 on the predefined `EFFECTIVE_TYPE_INT8`: the probe key of its offset-0
entry is `EFFECTIVE_HASH(INT8_HASH, INT8_HASH, 0) = 0xB79F915E`, which starts at
slot `key & 1 = 0`; the positional initialiser put that value into `name`, the
`hash` members of the two slots are `2 ^ 64 - 2 ^ 34` and `0`, both live, and
the lookup of the type at offset 0 finds no entry. -/
theorem C8_int8_round_trip_fails :
    EFFECTIVE_HASH EFFECTIVE_TYPE_INT8.hash EFFECTIVE_TYPE_INT8.hash2 0 = 0xB79F915E ∧
    (0xB79F915E &&& EFFECTIVE_TYPE_INT8.mask) = 0 ∧
    EFFECTIVE_TYPE_INT8.layout.map (fun e => (e.name, e.offset, e.hash)) =
      [(0xB79F915E, 0, 2 ^ 64 - 2 ^ 34), (2 ^ 64 - 1, 0, 0)] ∧
    (∀ e ∈ EFFECTIVE_TYPE_INT8.layout, e.hash ≠ EFFECTIVE_ENTRY_EMPTY_HASH) ∧
    lookup EFFECTIVE_TYPE_INT8 EFFECTIVE_TYPE_INT8.hash 0 = none := by
  decide

/-- C10 on the predefined records: `EFFECTIVE_ENTRY_EMPTY_HASH` is `2 ^ 64 - 1`,
but in the only slot of `EFFECTIVE_TYPE_FREE` and in the second slot of
`EFFECTIVE_TYPE_INT8` the member `hash` is 0; the `-1` of the positional
initialiser is the value of the member `name`. -/
theorem C10_terminating_hash_is_zero :
    EFFECTIVE_ENTRY_EMPTY_HASH = 2 ^ 64 - 1 ∧
    EFFECTIVE_TYPE_NIL_HASH = 2 ^ 64 - 1 ∧
    EFFECTIVE_TYPE_FREE.layout.map (fun e => (e.name, e.hash)) = [(2 ^ 64 - 1, 0)] ∧
    (EFFECTIVE_TYPE_INT8.layout.get? 1).map (fun e => (e.name, e.hash)) =
      some (2 ^ 64 - 1, 0) := by
  decide

/-- C11 on the predefined `EFFECTIVE_TYPE_INT8`: the `bounds` member of its
offset-0 entry is `{0, 0}`, not `EFFECTIVE_BOUNDS_NEG_DELTA_DELTA`; the braces
`{-EFFECTIVE_DELTA, EFFECTIVE_DELTA}` of the positional initialiser initialise
the member `hash`, which takes their first element. -/
theorem C11_int8_entry_bounds_are_zero :
    (EFFECTIVE_TYPE_INT8.layout.get? 0).map (fun e => e.bounds) = some ⟨0, 0⟩ ∧
    EFFECTIVE_BOUNDS_NEG_DELTA_DELTA = ⟨-EFFECTIVE_DELTA, EFFECTIVE_DELTA⟩ ∧
    (EFFECTIVE_TYPE_INT8.layout.get? 0).map (fun e => e.bounds) ≠
      some EFFECTIVE_BOUNDS_NEG_DELTA_DELTA ∧
    (EFFECTIVE_TYPE_INT8.layout.get? 0).map (fun e => e.hash) = some (to_u64 (-EFFECTIVE_DELTA)) := by
  decide

/-- C12: `EFFECTIVE_BOUNDS_NEG_DELTA_DELTA` is the pair with lower bound
`-EFFECTIVE_DELTA` (index 0) and upper bound `+EFFECTIVE_DELTA` (index 1), where
`EFFECTIVE_DELTA = 16 * 2 ^ 30 = 2 ^ 34`; so the lower bound is the negative of
the upper bound and `lower < 0 < upper`. -/
theorem C12_wide_sentinel_bounds :
    EFFECTIVE_BOUNDS_NEG_DELTA_DELTA.lo = -EFFECTIVE_DELTA ∧
    EFFECTIVE_BOUNDS_NEG_DELTA_DELTA.hi = EFFECTIVE_DELTA ∧
    EFFECTIVE_DELTA = 16 * 2 ^ 30 ∧ EFFECTIVE_DELTA = 2 ^ 34 ∧
    EFFECTIVE_BOUNDS_NEG_DELTA_DELTA.lo = -EFFECTIVE_BOUNDS_NEG_DELTA_DELTA.hi ∧
    EFFECTIVE_BOUNDS_NEG_DELTA_DELTA.lo < 0 ∧ 0 < EFFECTIVE_BOUNDS_NEG_DELTA_DELTA.hi := by
  decide

/-- C13: `EFFECTIVE_TYPE_FREE` has mask 0 and `EFFECTIVE_TYPE_INT8` has mask 1;
for both the number of slots of `layout[]` is `mask + 1`, a power of two, and
`key & mask` is the index of a slot for every key. -/
theorem C13_layout_sized_by_mask :
    (EFFECTIVE_TYPE_FREE.mask = 0 ∧
     EFFECTIVE_TYPE_FREE.layout.length = EFFECTIVE_TYPE_FREE.mask + 1 ∧
     EFFECTIVE_TYPE_FREE.mask + 1 = 2 ^ 0 ∧
     ∀ key : Nat, key &&& EFFECTIVE_TYPE_FREE.mask < EFFECTIVE_TYPE_FREE.layout.length) ∧
    (EFFECTIVE_TYPE_INT8.mask = 1 ∧
     EFFECTIVE_TYPE_INT8.layout.length = EFFECTIVE_TYPE_INT8.mask + 1 ∧
     EFFECTIVE_TYPE_INT8.mask + 1 = 2 ^ 1 ∧
     ∀ key : Nat, key &&& EFFECTIVE_TYPE_INT8.mask < EFFECTIVE_TYPE_INT8.layout.length) := by
  refine ⟨⟨by decide, by decide, by decide, fun key => ?_⟩,
          ⟨by decide, by decide, by decide, fun key => ?_⟩⟩
  · have h := @Nat.and_le_right key EFFECTIVE_TYPE_FREE.mask
    have hm : EFFECTIVE_TYPE_FREE.mask = 0 := by decide
    have hl : EFFECTIVE_TYPE_FREE.layout.length = 1 := by decide
    omega
  · have h := @Nat.and_le_right key EFFECTIVE_TYPE_INT8.mask
    have hm : EFFECTIVE_TYPE_INT8.mask = 1 := by decide
    have hl : EFFECTIVE_TYPE_INT8.layout.length = 2 := by decide
    omega

/-- C14 fails as stated: none of the counters that `effective.h` declares counts
use-after-free errors, and none counts sanity errors. -/
theorem C14_no_counter_for_two_classes :
    (¬ ∃ s : STAT, s.error_class = some ERROR_CLASS.UseAfterFreeError) ∧
    (¬ ∃ s : STAT, s.error_class = some ERROR_CLASS.SanityError) := by
  decide

/-- C14 as amended: each of the error classes TypeError, BoundsError,
DoubleFreeError and BadFreeError has exactly one counter among the declared
statistics, namely `effective_num_type_errors`, `effective_num_bounds_errors`,
`effective_num_double_free_errors` and `effective_num_bad_free_errors`; these
four counters are pairwise distinct, and no declared counter counts two
classes. -/
theorem C14_four_dedicated_counters :
    (∀ s : STAT, s.error_class = some ERROR_CLASS.TypeError ↔
      s = STAT.effective_num_type_errors) ∧
    (∀ s : STAT, s.error_class = some ERROR_CLASS.BoundsError ↔
      s = STAT.effective_num_bounds_errors) ∧
    (∀ s : STAT, s.error_class = some ERROR_CLASS.DoubleFreeError ↔
      s = STAT.effective_num_double_free_errors) ∧
    (∀ s : STAT, s.error_class = some ERROR_CLASS.BadFreeError ↔
      s = STAT.effective_num_bad_free_errors) ∧
    [STAT.effective_num_type_errors, STAT.effective_num_bounds_errors,
      STAT.effective_num_double_free_errors, STAT.effective_num_bad_free_errors].Nodup := by
  decide

/-- C15: `struct TYCHE_METADATA_CACHELINE` has
`NUMBER_OF_ENTRIES_IN_EACH_CACHELINE = 14` members of type `uint32_t` followed
by the pointer `next_cacheline`; the pointer sits at offset 56, right after the
tags, the size of the struct is `14 * 4 + 8 = 64` bytes, which is the sum of
the sizes of its members (no padding), and `struct TyCheSectionMetadata` is an
array of `TYCHE_NUMBER_OF_OFFSETS()` such structs. -/
theorem C15_cacheline_is_64_bytes :
    TYCHE_METADATA_CACHELINE.members.map Prod.snd =
      List.replicate NUMBER_OF_ENTRIES_IN_EACH_CACHELINE C_uint32_t ++ [C_pointer] ∧
    NUMBER_OF_ENTRIES_IN_EACH_CACHELINE = 14 ∧
    (TYCHE_METADATA_CACHELINE.members.getLast?).map Prod.fst = some "next_cacheline" ∧
    (member_offsets (TYCHE_METADATA_CACHELINE.members.map Prod.snd) 0).getLast? = some 56 ∧
    sizeof_struct (TYCHE_METADATA_CACHELINE.members.map Prod.snd) = 14 * 4 + 8 ∧
    sizeof_struct (TYCHE_METADATA_CACHELINE.members.map Prod.snd) = 64 ∧
    ((TYCHE_METADATA_CACHELINE.members.map Prod.snd).map (fun m => m.size)).sum =
      sizeof_struct (TYCHE_METADATA_CACHELINE.members.map Prod.snd) ∧
    TyCheSectionMetadata.TypeMetadata_length = TYCHE_NUMBER_OF_OFFSETS ∧
    TyCheSectionMetadata.sizeof = TYCHE_NUMBER_OF_OFFSETS * 64 := by
  decide

/-- C16 on the macros: `TYCHE_NUMBER_OF_OFFSETS()` is 16384, so the table covers
`16384 * 32 = 2 ^ 19` bytes (512KB), not `2 ^ 20`; the byte offset `2 ^ 19` is
below 1MB and its index `2 ^ 19 / 32` is `TYCHE_NUMBER_OF_OFFSETS()`, one past
the last valid index. -/
theorem C16_offset_table_covers_half_a_megabyte :
    TYCHE_NUMBER_OF_OFFSETS = 16384 ∧
    TYCHE_NUMBER_OF_OFFSETS * TYCHE_OFFSETS_DEVIDER = 2 ^ 19 ∧
    TYCHE_NUMBER_OF_OFFSETS * TYCHE_OFFSETS_DEVIDER ≠ 2 ^ 20 ∧
    2 ^ 19 < 2 ^ 20 ∧
    2 ^ 19 / TYCHE_OFFSETS_DEVIDER = TYCHE_NUMBER_OF_OFFSETS ∧
    ¬ (2 ^ 19 / TYCHE_OFFSETS_DEVIDER < TYCHE_NUMBER_OF_OFFSETS) := by
  decide

/-- C17: for every size `s` with `1 <= s < 2 ^ 64`, `EFFECTIVE_MAGIC(s)` is
`floor ((2 ^ 63 - 1) / s) + 1`, which is `ceil (2 ^ 63 / s)`:
`s * EFFECTIVE_MAGIC(s) >= 2 ^ 63 > s * (EFFECTIVE_MAGIC(s) - 1)`; the value is
at most `2 ^ 63`, and the addition of the macro does not wrap in `size_t`. -/
theorem C17_magic_is_rounded_up_reciprocal (s : Nat) (hs : 1 ≤ s) (_hs64 : s < 2 ^ 64) :
    EFFECTIVE_MAGIC s = (2 ^ 63 - 1) / s + 1 ∧
    EFFECTIVE_MAGIC s = (2 ^ 63 + s - 1) / s ∧
    2 ^ 63 ≤ s * EFFECTIVE_MAGIC s ∧
    s * (EFFECTIVE_MAGIC s - 1) < 2 ^ 63 ∧
    EFFECTIVE_MAGIC s ≤ 2 ^ 63 ∧
    (SIZE_MAX - (SIZE_MAX * 2 ^ EFFECTIVE_RADIX) % WORD) / s + 1 < WORD := by
  have hspos : 0 < s := hs
  have hM := EFFECTIVE_MAGIC_eq s
  have hdiv : (2 ^ 63 - 1) / s ≤ 2 ^ 63 - 1 := Nat.div_le_self _ _
  have hmul : s * ((2 ^ 63 - 1) / s) ≤ 2 ^ 63 - 1 := Nat.mul_div_le _ _
  have hnum : SIZE_MAX - (SIZE_MAX * 2 ^ EFFECTIVE_RADIX) % WORD = 2 ^ 63 - 1 := by decide
  refine ⟨hM, ?_, (magic_mul_bounds s hs).1, ?_, ?_, ?_⟩
  · rw [hM]
    have h : 2 ^ 63 + s - 1 = (2 ^ 63 - 1) + s := by omega
    rw [h, Nat.add_div_right _ hspos]
  · rw [hM, Nat.add_sub_cancel]; omega
  · rw [hM]; omega
  · rw [hnum]; unfold WORD; omega

/-- C17 at the sizes 1 and 3: `EFFECTIVE_MAGIC(1) = 2 ^ 63`, and
`EFFECTIVE_MAGIC(3) = 3074457345618258603` is the least multiplier whose
product with 3 reaches `2 ^ 63`. -/
theorem C17_magic_is_rounded_up_reciprocal_witness :
    1 ≤ 1 ∧ 1 < 2 ^ 64 ∧ EFFECTIVE_MAGIC 1 = 2 ^ 63 ∧
    EFFECTIVE_MAGIC 3 = 3074457345618258603 ∧
    (2 ^ 63 ≤ 3 * EFFECTIVE_MAGIC 3 ∧ 3 * (EFFECTIVE_MAGIC 3 - 1) < 2 ^ 63) :=
  ⟨by decide, by decide,
   (C17_magic_is_rounded_up_reciprocal 1 (by decide) (by decide)).1.trans (by decide),
   by decide,
   (C17_magic_is_rounded_up_reciprocal 3 (by decide) (by decide)).2.2.1,
   (C17_magic_is_rounded_up_reciprocal 3 (by decide) (by decide)).2.2.2.1⟩

/-- C18: in both predefined records, `EFFECTIVE_TYPE_FREE` and
`EFFECTIVE_TYPE_INT8`, `sanity` is `EFFECTIVE_SANITY = 0x4FEBF99B`, `size_fam`
equals `size`, `offset_fam` is 0, and `magic` is
`EFFECTIVE_MAGIC(size_fam) = 2 ^ 63`. -/
theorem C18_predefined_header_fields :
    EFFECTIVE_SANITY = 0x4FEBF99B ∧
    (EFFECTIVE_TYPE_FREE.sanity = EFFECTIVE_SANITY ∧
     EFFECTIVE_TYPE_FREE.size_fam = EFFECTIVE_TYPE_FREE.size ∧
     EFFECTIVE_TYPE_FREE.offset_fam = 0 ∧
     EFFECTIVE_TYPE_FREE.magic = EFFECTIVE_MAGIC EFFECTIVE_TYPE_FREE.size_fam ∧
     EFFECTIVE_TYPE_FREE.magic = 2 ^ 63) ∧
    (EFFECTIVE_TYPE_INT8.sanity = EFFECTIVE_SANITY ∧
     EFFECTIVE_TYPE_INT8.size_fam = EFFECTIVE_TYPE_INT8.size ∧
     EFFECTIVE_TYPE_INT8.offset_fam = 0 ∧
     EFFECTIVE_TYPE_INT8.magic = EFFECTIVE_MAGIC EFFECTIVE_TYPE_INT8.size_fam ∧
     EFFECTIVE_TYPE_INT8.magic = 2 ^ 63) := by
  decide

/-- C19 on the predefined records: neither initialiser names the member
`length`, so it is 0 in both, while `layout[]` has one entry in
`EFFECTIVE_TYPE_FREE` and two in `EFFECTIVE_TYPE_INT8`. -/
theorem C19_length_is_zero :
    EFFECTIVE_TYPE_FREE.length = 0 ∧ EFFECTIVE_TYPE_FREE.layout.length = 1 ∧
    EFFECTIVE_TYPE_INT8.length = 0 ∧ EFFECTIVE_TYPE_INT8.layout.length = 2 ∧
    EFFECTIVE_TYPE_FREE.length ≠ EFFECTIVE_TYPE_FREE.layout.length ∧
    EFFECTIVE_TYPE_INT8.length ≠ EFFECTIVE_TYPE_INT8.layout.length := by
  decide

/-- C20: in a sequential execution `EFFECTIVE_COUNT(stat)` gives the same
result with and without `EFFECTIVE_FLAG_SINGLE_THREADED`: the counter `stat`
becomes its old value plus one modulo `2 ^ 64` and every other counter keeps
its value; `EFFECTIVE_PROFILE_COUNT(stat)` changes nothing when
`EFFECTIVE_FLAG_PROFILE` is not defined and is `EFFECTIVE_COUNT(stat)` when it
is. -/
theorem C20_counting_configurations_agree (st : EFFECTIVE_STATS) (stat : STAT)
    (flags : EFFECTIVE_FLAGS) (single profile : Bool) :
    EFFECTIVE_COUNT_stat ⟨true, profile⟩ st stat = EFFECTIVE_COUNT_stat ⟨false, profile⟩ st stat ∧
    (∀ other : STAT, (EFFECTIVE_COUNT_stat flags st stat).1.get other =
      if other = stat then (st.get stat + 1) % 2 ^ 64 else st.get other) ∧
    (EFFECTIVE_COUNT_stat flags st stat).1.get stat = EFFECTIVE_COUNT (st.get stat) ∧
    EFFECTIVE_PROFILE_COUNT ⟨single, false⟩ st stat = st ∧
    EFFECTIVE_PROFILE_COUNT ⟨single, true⟩ st stat =
      (EFFECTIVE_COUNT_stat ⟨single, true⟩ st stat).1 := by
  have hsame : ∀ f : EFFECTIVE_FLAGS, EFFECTIVE_COUNT_stat f st stat =
      (st.set stat ((st.get stat + 1) % WORD), st.get stat) := by
    intro f
    unfold EFFECTIVE_COUNT_stat post_increment __sync_fetch_and_add
    split <;> rfl
  have hget : ∀ (v : Nat) (other : STAT),
      (st.set stat v).get other = if other = stat then v else st.get other := by
    intro v other
    cases stat <;> cases other <;> rfl
  refine ⟨?_, ?_, ?_, rfl, rfl⟩
  · rw [hsame, hsame]
  · intro other
    rw [hsame, hget]
    rfl
  · rw [hsame, hget, if_pos rfl]
    rfl

/-- C21 on `SDNodeFlags::intersectWith`: each of the first eight flags is set
afterwards exactly when it was set in both flag sets, but `VectorReduction` is
left as it was: with every flag of `a` set and no flag of `b` set,
`VectorReduction` is still set after `a.intersectWith(&b)`. -/
theorem C21_intersectWith_keeps_VectorReduction :
    (∀ a b : SDNodeFlags,
      (a.intersectWith b).NoUnsignedWrap = (a.NoUnsignedWrap && b.NoUnsignedWrap) ∧
      (a.intersectWith b).NoSignedWrap = (a.NoSignedWrap && b.NoSignedWrap) ∧
      (a.intersectWith b).Exact = (a.Exact && b.Exact) ∧
      (a.intersectWith b).UnsafeAlgebra = (a.UnsafeAlgebra && b.UnsafeAlgebra) ∧
      (a.intersectWith b).NoNaNs = (a.NoNaNs && b.NoNaNs) ∧
      (a.intersectWith b).NoInfs = (a.NoInfs && b.NoInfs) ∧
      (a.intersectWith b).NoSignedZeros = (a.NoSignedZeros && b.NoSignedZeros) ∧
      (a.intersectWith b).AllowReciprocal = (a.AllowReciprocal && b.AllowReciprocal) ∧
      (a.intersectWith b).VectorReduction = a.VectorReduction) ∧
    (SDNodeFlags.intersectWith ⟨true, true, true, true, true, true, true, true, true⟩
        ⟨false, false, false, false, false, false, false, false, false⟩).VectorReduction
      = true := by
  exact ⟨fun _ _ => ⟨rfl, rfl, rfl, rfl, rfl, rfl, rfl, rfl, rfl⟩, rfl⟩

/-- C26 on the extension filter of `main`: the path `d/a.dot.dot` ends with
`.dot` but is not parsed, because `find` gives the first occurrence (3, not
`11 - 4`); the path `./a` does not end with `.dot` but is parsed, because
`find` gives `npos` and `3 - 4` wraps to the same value. -/
theorem C26_extension_filter_misses :
    findFiles_path "d" "a.dot.dot" = "d/a.dot.dot" ∧
    ends_with_dot "d/a.dot.dot" = true ∧
    std_find "d/a.dot.dot" ".dot" = 3 ∧
    main_extension_filter "d/a.dot.dot" = false ∧
    findFiles_path "." "a" = "./a" ∧
    ends_with_dot "./a" = false ∧
    std_find "./a" ".dot" = npos ∧
    main_extension_filter "./a" = true := by
  decide

/-- C27 on `TypeNode::deepCopy`: the copies have the shape of the source, but
each copy has the empty title; the title of the node it was copied from is its
`name`. For a source with the child `int` below the child `struct S`, the
children of the destination are titled `""`, not `struct S`. -/
theorem C27_deepCopy_leaves_title_empty :
    (∀ (uninit : Int) (cs : List TypeNode),
      (deepCopy_childs uninit cs).map TypeNode.title = cs.map (fun _ => "") ∧
      (deepCopy_childs uninit cs).map TypeNode.name = cs.map TypeNode.title) ∧
    ((TypeNode.deepCopy (TypeNode.new "dst" 0)
        (.mk 0 "root" "node0" 0 [.mk 1 "struct S" "node1" 1 [.mk 2 "int" "node2" 2 []]])
        0).childs.map TypeNode.title = [""]) ∧
    ((TypeNode.deepCopy (TypeNode.new "dst" 0)
        (.mk 0 "root" "node0" 0 [.mk 1 "struct S" "node1" 1 [.mk 2 "int" "node2" 2 []]])
        0).childs.map TypeNode.name = ["struct S"]) := by
  refine ⟨fun uninit cs => ?_, by decide, by decide⟩
  induction cs with
  | nil => simp [deepCopy_childs]
  | cons c rest ih =>
    cases c with
    | mk n t nm i kids =>
      simp only [deepCopy_childs, deepCopy_node, List.map_cons, TypeNode.title, TypeNode.name,
        ih.1, ih.2, and_self]

/-- A loop that appends `f x` and `"#"` to a stream for each element in order
appends the concatenation of these pieces. -/
theorem append_loop {α : Type} (f : α → String) (l : List α) (acc : String) :
    l.foldl (fun ss x => ss ++ f x ++ "#") acc =
      acc ++ concat_all (l.map (fun x => f x ++ "#")) := by
  induction l generalizing acc with
  | nil => simp [concat_all]
  | cons x rest ih =>
    rw [List.foldl_cons, ih]
    simp only [List.map_cons, concat_all, String.append_assoc]

/-- C30: `dump()` of a `NodeTypeID` built from `nodes`, `names` and any validity
flag is `decimal(n) + "#"` for each node in order followed by `name + "#"` for
each name in order, whatever the flag; a newly constructed `SDNode` carries the
invalid empty id, whose dump is empty; and `getTypeID()` after `setTypeID(t)`
has the nodes, names and validity of `t`. -/
theorem C30_dump_format (nodes : List Nat) (names : List String) (valid : Bool)
    (Opc Order NumVTs : Nat) (node : SDNode) (t : NodeTypeID) :
    NodeTypeID.dump ⟨nodes, names, valid⟩ = dump_format nodes names ∧
    NodeTypeID.dump ⟨nodes, names, valid⟩ = NodeTypeID.dump ⟨nodes, names, !valid⟩ ∧
    ((SDNode.new Opc Order NumVTs).getTypeID.isValid = false ∧
     (SDNode.new Opc Order NumVTs).getTypeID.dump = "" ∧
     (SDNode.new Opc Order NumVTs).getTypeID.getNodesVector = [] ∧
     (SDNode.new Opc Order NumVTs).getTypeID.getNamesVector = []) ∧
    ((node.setTypeID t).getTypeID.getNodesVector = t.getNodesVector ∧
     (node.setTypeID t).getTypeID.getNamesVector = t.getNamesVector ∧
     (node.setTypeID t).getTypeID.isValid = t.isValid ∧
     (node.setTypeID t).getTypeID = t) := by
  refine ⟨?_, rfl, ⟨rfl, rfl, rfl, rfl⟩, ⟨rfl, rfl, rfl, rfl⟩⟩
  unfold NodeTypeID.dump dump_format
  simp only [std_dec]
  rw [append_loop Nat.repr nodes "", append_loop (fun name => name) names]
  simp

/-! ## The CRC step -/

/-- One step of the CRC keeps a value below `2 ^ 32` below `2 ^ 32`. -/
theorem crc32c_bit_lt (s : Nat) (h : s < 2 ^ 32) : crc32c_bit s < 2 ^ 32 := by
  have h2 : s / 2 < 2 ^ 32 := by omega
  unfold crc32c_bit
  split
  · exact Nat.xor_lt_two_pow h2 (by norm_num)
  · exact h2

/-- One step of the CRC shortens a value of more than 32 bits by one bit. -/
theorem crc32c_bit_shrink (k s : Nat) (h : s < 2 ^ (32 + (k + 1))) :
    crc32c_bit s < 2 ^ (32 + k) := by
  have hp : (2 : Nat) ^ (32 + (k + 1)) = 2 * 2 ^ (32 + k) := by
    rw [← Nat.add_assoc, Nat.pow_succ, Nat.mul_comm]
  have h2 : s / 2 < 2 ^ (32 + k) := by omega
  have hP : 0x82F63B78 < 2 ^ (32 + k) :=
    lt_of_lt_of_le (by norm_num : 0x82F63B78 < 2 ^ 32)
      (Nat.pow_le_pow_right (by norm_num) (Nat.le_add_right 32 k))
  unfold crc32c_bit
  split
  · exact Nat.xor_lt_two_pow h2 hP
  · exact h2

/-- After `n` steps a value of `32 + k` bits has `32 + (k - n)` bits. -/
theorem crc32c_iterate_lt (n : Nat) : ∀ (k s : Nat), s < 2 ^ (32 + k) →
    crc32c_bit^[n] s < 2 ^ (32 + (k - n)) := by
  induction n with
  | zero => intro k s h; simpa using h
  | succ n ih =>
    intro k s h
    rw [Function.iterate_succ_apply]
    cases k with
    | zero =>
      have h1 : crc32c_bit s < 2 ^ (32 + 0) := crc32c_bit_lt s h
      simpa using ih 0 _ h1
    | succ k =>
      have h1 := crc32c_bit_shrink k s h
      simpa using ih k _ h1

/-- The result of the CRC builtin is a 32-bit value. -/
theorem crc32di_lt (crc data : Nat) : crc32di crc data < 2 ^ 32 := by
  have hc : crc % 2 ^ 32 < 2 ^ 64 :=
    lt_trans (Nat.mod_lt _ (by norm_num)) (by norm_num)
  have hd : data % WORD < 2 ^ 64 := Nat.mod_lt _ (by unfold WORD; norm_num)
  have h0 : (crc % 2 ^ 32) ^^^ (data % WORD) < 2 ^ (32 + 32) := Nat.xor_lt_two_pow hc hd
  have h := crc32c_iterate_lt 64 32 _ h0
  have e : 32 + (32 - 64) = 32 := by norm_num
  rw [e] at h
  exact h

/-- One step of the CRC is injective on 32-bit values: the top bit of the
result tells whether the polynomial was folded in. -/
theorem crc32c_bit_inj (a b : Nat) (ha : a < 2 ^ 32) (hb : b < 2 ^ 32)
    (h : crc32c_bit a = crc32c_bit b) : a = b := by
  have ha2 : a / 2 < 2 ^ 31 := by omega
  have hb2 : b / 2 < 2 ^ 31 := by omega
  have hmix : ∀ x y : Nat, x < 2 ^ 31 → y < 2 ^ 31 → x ^^^ 0x82F63B78 = y → False := by
    intro x y hx hy hxy
    have hP : x ^^^ y = 0x82F63B78 := by
      rw [← hxy, Nat.xor_cancel_left]
    have hlt : x ^^^ y < 2 ^ 31 := Nat.xor_lt_two_pow hx hy
    rw [hP] at hlt
    norm_num at hlt
  unfold crc32c_bit at h
  by_cases pa : a % 2 = 1 <;> by_cases pb : b % 2 = 1
  · rw [if_pos pa, if_pos pb] at h
    have := Nat.xor_left_injective h
    simp only at this
    omega
  · rw [if_pos pa, if_neg pb] at h
    exact absurd h (fun h => hmix _ _ ha2 hb2 h)
  · rw [if_neg pa, if_pos pb] at h
    exact absurd h.symm (fun h => hmix _ _ hb2 ha2 h)
  · rw [if_neg pa, if_neg pb] at h
    omega

/-- Any number of steps of the CRC is injective on 32-bit values. -/
theorem crc32c_iterate_inj (n : Nat) : ∀ (a b : Nat), a < 2 ^ 32 → b < 2 ^ 32 →
    crc32c_bit^[n] a = crc32c_bit^[n] b → a = b := by
  induction n with
  | zero => intro a b _ _ h; simpa using h
  | succ n ih =>
    intro a b ha hb h
    rw [Function.iterate_succ_apply, Function.iterate_succ_apply] at h
    exact crc32c_bit_inj a b ha hb (ih _ _ (crc32c_bit_lt a ha) (crc32c_bit_lt b hb) h)

/-- Division by a power of two distributes over exclusive or. -/
theorem xor_div_two_pow (a b k : Nat) : (a ^^^ b) / 2 ^ k = a / 2 ^ k ^^^ b / 2 ^ k := by
  induction k with
  | zero => simp
  | succ k ih =>
    rw [Nat.pow_succ, ← Nat.div_div_eq_div_mul, ← Nat.div_div_eq_div_mul,
      ← Nat.div_div_eq_div_mul, ih, Nat.xor_div_two]

/-- C28: for all `h1`, `h2` and all offsets `o1 != o2` below `2 ^ 32`,
`EFFECTIVE_HASH(h1, h2, o1) != EFFECTIVE_HASH(h1, h2, o2)`. -/
theorem C28_hash_injective_in_offset (h1 h2 o1 o2 : Nat) (ho1 : o1 < 2 ^ 32)
    (ho2 : o2 < 2 ^ 32) (hne : o1 ≠ o2) :
    EFFECTIVE_HASH h1 h2 o1 ≠ EFFECTIVE_HASH h1 h2 o2 := by
  intro h
  unfold EFFECTIVE_HASH at h
  have hcrc : crc32di h2 o1 = crc32di h2 o2 := by
    have := Nat.xor_left_injective h
    simpa using this
  unfold crc32di at hcrc
  have hw1 : o1 % WORD = o1 := Nat.mod_eq_of_lt (lt_trans ho1 (by unfold WORD; norm_num))
  have hw2 : o2 % WORD = o2 := Nat.mod_eq_of_lt (lt_trans ho2 (by unfold WORD; norm_num))
  rw [hw1, hw2] at hcrc
  have hc : h2 % 2 ^ 32 < 2 ^ 32 := Nat.mod_lt _ (by norm_num)
  have hs := crc32c_iterate_inj 64 _ _ (Nat.xor_lt_two_pow hc ho1) (Nat.xor_lt_two_pow hc ho2) hcrc
  exact hne (Nat.xor_right_injective hs)

/-- C28 at the offsets 0 and 8 of the predefined `int8_t` type. -/
theorem C28_hash_injective_in_offset_witness :
    (0 : Nat) < 2 ^ 32 ∧ (8 : Nat) < 2 ^ 32 ∧ (0 : Nat) ≠ 8 ∧
    EFFECTIVE_HASH EFFECTIVE_TYPE_INT8_HASH EFFECTIVE_TYPE_INT8_HASH 0 ≠
      EFFECTIVE_HASH EFFECTIVE_TYPE_INT8_HASH EFFECTIVE_TYPE_INT8_HASH 8 :=
  ⟨by norm_num, by norm_num, by norm_num,
   C28_hash_injective_in_offset EFFECTIVE_TYPE_INT8_HASH EFFECTIVE_TYPE_INT8_HASH 0 8
     (by norm_num) (by norm_num) (by norm_num)⟩

/-- C29: the upper 32 bits of `EFFECTIVE_HASH(h1, h2, offset)` are the upper 32
bits of `h1 ^ h2`, the result of the CRC builtin being a 32-bit value; with
`h1 = h2`, as in the predefined records, the key is below `2 ^ 32`. -/
theorem C29_offset_reaches_low_bits_only (h1 h2 h offset : Nat) :
    EFFECTIVE_HASH h1 h2 offset / 2 ^ 32 = (h1 ^^^ h2) / 2 ^ 32 ∧
    crc32di h2 offset < 2 ^ 32 ∧
    EFFECTIVE_HASH h h offset < 2 ^ 32 ∧
    EFFECTIVE_TYPE_FREE.hash = EFFECTIVE_TYPE_FREE.hash2 ∧
    EFFECTIVE_TYPE_INT8.hash = EFFECTIVE_TYPE_INT8.hash2 := by
  refine ⟨?_, crc32di_lt h2 offset, ?_, by decide, by decide⟩
  · unfold EFFECTIVE_HASH
    rw [xor_div_two_pow, Nat.div_eq_of_lt (crc32di_lt h2 offset), Nat.zero_xor]
  · unfold EFFECTIVE_HASH
    rw [Nat.xor_self, Nat.xor_zero]
    exact crc32di_lt h offset

/-- What `proneNew` computes on a tree whose wrapper nodes have one child each:
the retitled tree and the string `f(n)`. -/
theorem proneNew_spec (n : TypeNode) :
    wrappers_single n = true → proneNew n = some (retitle n, collapse n) := by
  refine @TypeNode.rec
    (fun n => wrappers_single n = true → proneNew n = some (retitle n, collapse n))
    (fun cs => wrappers_single_childs cs = true →
      (∀ c ∈ cs, proneNew c = some (retitle c, collapse c)) ∧
      proneNew_childs cs = some (retitle_childs cs)) ?_ ?_ ?_ n
  · intro nodeNo title name typeID childs ih hw
    rw [wrappers_single, Bool.and_eq_true] at hw
    obtain ⟨hone, hkids⟩ := hw
    obtain ⟨ihall, ihlist⟩ := ih hkids
    by_cases hp : is_Pointer title = true
    · have hlen : childs.length = 1 := by simpa [hp] using hone
      match childs, hlen, ihall with
      | [child], _, ihall =>
        have hc := ihall child (List.mem_singleton.mpr rfl)
        simp only [proneNew, hp, if_true, hc, retitle, retitle_childs, collapse, collapse_first]
    · have hp2 : is_Pointer title = false := by simpa using hp
      by_cases ha : is_Array title = true
      · have hlen : childs.length = 1 := by simpa [ha] using hone
        match childs, hlen, ihall with
        | [child], _, ihall =>
          have hc := ihall child (List.mem_singleton.mpr rfl)
          simp only [proneNew, hp2, ha, if_true, hc, retitle, retitle_childs, collapse,
            collapse_first]
          simp
      · have ha2 : is_Array title = false := by simpa using ha
        unfold proneNew
        simp only [hp2, ha2, ihlist, retitle, collapse]
        simp
  · intro _
    exact ⟨fun c hc => absurd hc (List.not_mem_nil c), rfl⟩
  · intro child rest ihc ihr hw
    rw [wrappers_single_childs, Bool.and_eq_true] at hw
    obtain ⟨ihall, ihlist⟩ := ihr hw.2
    refine ⟨?_, ?_⟩
    · intro c hc
      rcases List.mem_cons.mp hc with h | h
      · rw [h]; exact ihc hw.1
      · exact ihall c h
    · rw [proneNew_childs, ihc hw.1, ihlist, retitle_childs]

/-- The titles of a list of trees after retitling are the values of `f`. -/
theorem retitle_title (n : TypeNode) : (retitle n).title = collapse n := by
  cases n with
  | mk nodeNo title name typeID childs => simp [retitle, TypeNode.title]

/-- Retitling keeps the number of children of every node. -/
theorem retitle_childs_length (cs : List TypeNode) :
    (retitle_childs cs).length = cs.length := by
  induction cs with
  | nil => rfl
  | cons c rest ih => simp [retitle_childs, ih]

/-- C22: on a finite tree in which every node whose title starts with
`Pointer:` or `Array:` has exactly one child, `proneNew(n)` returns `f(n)`, where
`f` is `f(child) + "*"` at a `Pointer:` node, `f(child) + "[]"` at an `Array:`
node and the title otherwise; the tree afterwards is the tree before with every
title replaced by `f(node)`: the title of a node that is no wrapper and every
child list keep their shape, the members `nodeNo`, `name` and `typeID` are
untouched. -/
theorem C22_proneNew_collapses_wrappers (n : TypeNode) (hw : wrappers_single n = true) :
    proneNew n = some (retitle n, collapse n) ∧
    (retitle n).title = collapse n ∧
    (is_Pointer n.title = true → collapse n = collapse_first n.childs ++ "*") ∧
    (is_Pointer n.title = false → is_Array n.title = true →
      collapse n = collapse_first n.childs ++ "[]") ∧
    (is_Pointer n.title = false → is_Array n.title = false → collapse n = n.title) ∧
    (retitle n).childs = retitle_childs n.childs ∧
    (retitle n).childs.length = n.childs.length ∧
    (retitle n).nodeNo = n.nodeNo ∧ (retitle n).name = n.name ∧
    (retitle n).typeID = n.typeID := by
  refine ⟨proneNew_spec n hw, retitle_title n, ?_⟩
  cases n with
  | mk nodeNo title name typeID childs =>
    simp only [TypeNode.title, TypeNode.childs, TypeNode.nodeNo, TypeNode.name, TypeNode.typeID,
      retitle, collapse, retitle_childs_length]
    refine ⟨fun h => by simp [h], fun h1 h2 => by simp [h1, h2], fun h1 h2 => by simp [h1, h2],
      trivial, trivial, trivial, trivial, trivial⟩

/-- C22 on the chain `Pointer:` over `Array:` over `int`: the call returns
`int[]*`, the `Array:` node is retitled `int[]` and the leaf keeps `int`. -/
theorem C22_proneNew_collapses_wrappers_witness :
    wrappers_single
      (.mk 0 "Pointer:" "node0" (-1) [.mk 1 "Array:" "node1" (-1) [.mk 2 "int" "node2" (-1) []]])
      = true ∧
    (proneNew
      (.mk 0 "Pointer:" "node0" (-1)
        [.mk 1 "Array:" "node1" (-1) [.mk 2 "int" "node2" (-1) []]])).map Prod.snd
      = some "int[]*" ∧
    collapse
      (.mk 0 "Pointer:" "node0" (-1) [.mk 1 "Array:" "node1" (-1) [.mk 2 "int" "node2" (-1) []]])
      = "int[]*" ∧
    (((proneNew
      (.mk 0 "Pointer:" "node0" (-1)
        [.mk 1 "Array:" "node1" (-1) [.mk 2 "int" "node2" (-1) []]])).map Prod.fst).map
          (fun t => (t.title, t.childs.map TypeNode.title,
            t.childs.map (fun c => c.childs.map TypeNode.title))))
      = some ("int[]*", ["int[]"], [["int"]]) := by
  have h := (C22_proneNew_collapses_wrappers
    (.mk 0 "Pointer:" "node0" (-1) [.mk 1 "Array:" "node1" (-1) [.mk 2 "int" "node2" (-1) []]])
    (by decide)).1
  refine ⟨by decide, ?_, by decide, ?_⟩
  · rw [h]; decide
  · rw [h]; decide

/-! ## The merge step -/

/-- Writing the `typeID` reads back, and leaves the title. -/
theorem setTypeID_fields (n : TypeNode) (v : Int) :
    (n.setTypeID v).typeID = v ∧ (n.setTypeID v).title = n.title ∧
    (n.setTypeID v).childs = n.childs := by
  cases n with
  | mk nodeNo title name typeID childs => exact ⟨rfl, rfl, rfl⟩

/-- Writing the `typeID` leaves the proper descendants. -/
theorem descendants_setTypeID (n : TypeNode) (v : Int) :
    descendants (n.setTypeID v) = descendants n := by
  cases n with
  | mk nodeNo title name typeID childs => simp only [TypeNode.setTypeID, descendants]

/-- A fresh title with the next number keeps the map numbered. -/
theorem numbered_set (m : TypeMap) (ID : Int) (t : String) (h0 : 0 ≤ ID) (h : m.numbered ID)
    (hfresh : m t = none) : (m.set t (ID + 1)).numbered (ID + 1) ∧ m.le (m.set t (ID + 1)) := by
  obtain ⟨hinj, hrange⟩ := h
  refine ⟨⟨?_, ?_⟩, ?_⟩
  · intro a b v ha hb
    simp only [TypeMap.set] at ha hb
    by_cases h1 : a = t <;> by_cases h2 : b = t
    · rw [h1, h2]
    · rw [if_pos h1] at ha
      rw [if_neg h2] at hb
      have := (hrange b v hb).2
      cases ha
      omega
    · rw [if_neg h1] at ha
      rw [if_pos h2] at hb
      have := (hrange a v ha).2
      cases hb
      omega
    · rw [if_neg h1] at ha
      rw [if_neg h2] at hb
      exact hinj a b v ha hb
  · intro a v ha
    simp only [TypeMap.set] at ha
    by_cases h1 : a = t
    · rw [if_pos h1] at ha
      cases ha
      omega
    · rw [if_neg h1] at ha
      have := hrange a v ha
      omega
  · intro a v ha
    simp only [TypeMap.set]
    by_cases h1 : a = t
    · rw [h1, hfresh] at ha
      cases ha
    · rw [if_neg h1]
      exact ha

/-- An `int` result inside the range of `int` is held as it is. -/
theorem int32_of_fits (x : Int) (h0 : 0 ≤ x) (h1 : x ≤ INT_MAX) : int32 x = x := by
  unfold INT_MAX at h1
  unfold int32
  omega

/-- The result of `prone2` and of its loop, from every numbered map and every
counter that is not negative and cannot overflow on the tree. -/
theorem prone2_spec (n : TypeNode) : ∀ (m : TypeMap) (ID : Int), 0 ≤ ID →
    ID + (descendants n).length ≤ INT_MAX → m.numbered ID →
    prone2_post m ID (descendants n) (descendants (prone2 n m ID).1)
      (prone2 n m ID).2.1 (prone2 n m ID).2.2 ∧ (prone2 n m ID).1.title = n.title := by
  refine @TypeNode.rec
    (fun n => ∀ (m : TypeMap) (ID : Int), 0 ≤ ID →
      ID + (descendants n).length ≤ INT_MAX → m.numbered ID →
      prone2_post m ID (descendants n) (descendants (prone2 n m ID).1)
        (prone2 n m ID).2.1 (prone2 n m ID).2.2 ∧ (prone2 n m ID).1.title = n.title)
    (fun cs => ∀ (m : TypeMap) (ID : Int), 0 ≤ ID →
      ID + (descendants_childs cs).length ≤ INT_MAX → m.numbered ID →
      prone2_post m ID (descendants_childs cs) (descendants_childs (prone2_childs cs m ID).1)
        (prone2_childs cs m ID).2.1 (prone2_childs cs m ID).2.2)
    ?_ ?_ ?_ n
  · intro nodeNo title name typeID childs ih m ID h0 hfit hm
    have h := ih m ID h0 hfit hm
    simp only [prone2, descendants, TypeNode.title]
    exact ⟨h, trivial⟩
  · intro m ID _ _ hm
    simp only [prone2_childs, descendants_childs]
    refine ⟨hm, fun s v h => h, le_refl _, fun d hd => absurd hd (List.not_mem_nil d), rfl, ?_⟩
    simp
  · intro child rest ihc ihr m ID h0 hfit hm
    have hlen : ((descendants_childs (child :: rest)).length : Int) =
        1 + (descendants child).length + (descendants_childs rest).length := by
      simp only [descendants_childs, List.length_cons, List.length_append]
      push_cast
      ring
    rw [hlen] at hfit
    have ha : (0 : Int) ≤ (descendants child).length := Int.ofNat_nonneg _
    have hb : (0 : Int) ≤ (descendants_childs rest).length := Int.ofNat_nonneg _
    cases hfind : m child.title with
    | none =>
      have hw : int32 (ID + 1) = ID + 1 := int32_of_fits _ (by omega) (by omega)
      obtain ⟨hm1, hle1⟩ := numbered_set m ID child.title h0 hm hfind
      have h1 : ID ≤ ID + 1 := by omega
      obtain ⟨⟨hn2, hle2, hid2, hd2, ht2, hb2⟩, htitle⟩ :=
        ihc (m.set child.title (ID + 1)) (ID + 1) (le_trans h0 h1) (by omega) hm1
      obtain ⟨hn3, hle3, hid3, hd3, ht3, hb3⟩ :=
        ihr _ _ (le_trans (le_trans h0 h1) hid2) (by omega) hn2
      have hstep : prone2_childs (child :: rest) m ID =
          (((prone2 child (m.set child.title (ID + 1)) (ID + 1)).1.setTypeID (ID + 1)) ::
            (prone2_childs rest (prone2 child (m.set child.title (ID + 1)) (ID + 1)).2.1
              (prone2 child (m.set child.title (ID + 1)) (ID + 1)).2.2).1,
           (prone2_childs rest (prone2 child (m.set child.title (ID + 1)) (ID + 1)).2.1
              (prone2 child (m.set child.title (ID + 1)) (ID + 1)).2.2).2.1,
           (prone2_childs rest (prone2 child (m.set child.title (ID + 1)) (ID + 1)).2.1
              (prone2 child (m.set child.title (ID + 1)) (ID + 1)).2.2).2.2) := by
        rw [prone2_childs, hfind]
        simp only [hw]
      rw [hstep]
      obtain ⟨hf1, hf2, -⟩ := setTypeID_fields
        (prone2 child (m.set child.title (ID + 1)) (ID + 1)).1 (ID + 1)
      refine ⟨hn3, fun s v h => hle3 s v (hle2 s v (hle1 s v h)),
        le_trans (le_trans h1 hid2) hid3, ?_, ?_, ?_⟩
      · intro d hd
        simp only [descendants_childs, descendants_setTypeID, List.mem_cons, List.mem_append] at hd
        rcases hd with hd | hd | hd
        · rw [hd, hf1, hf2, htitle]
          apply hle3
          apply hle2
          simp [TypeMap.set]
        · exact hle3 _ _ (hd2 d hd)
        · exact hd3 d hd
      · simp only [descendants_childs, descendants_setTypeID, List.map_cons, List.map_append,
          hf2, htitle, ht2, ht3]
      · refine le_trans hb3 ?_
        rw [hlen]
        have e2 := hb2
        omega
    | some v =>
      obtain ⟨⟨hn2, hle2, hid2, hd2, ht2, hb2⟩, htitle⟩ := ihc m ID h0 (by omega) hm
      obtain ⟨hn3, hle3, hid3, hd3, ht3, hb3⟩ := ihr _ _ (le_trans h0 hid2) (by omega) hn2
      have hstep : prone2_childs (child :: rest) m ID =
          (((prone2 child m ID).1.setTypeID v) ::
            (prone2_childs rest (prone2 child m ID).2.1 (prone2 child m ID).2.2).1,
           (prone2_childs rest (prone2 child m ID).2.1 (prone2 child m ID).2.2).2.1,
           (prone2_childs rest (prone2 child m ID).2.1 (prone2 child m ID).2.2).2.2) := by
        rw [prone2_childs, hfind]
      rw [hstep]
      obtain ⟨hf1, hf2, -⟩ := setTypeID_fields (prone2 child m ID).1 v
      refine ⟨hn3, fun s w h => hle3 s w (hle2 s w h), le_trans hid2 hid3, ?_, ?_, ?_⟩
      · intro d hd
        simp only [descendants_childs, descendants_setTypeID, List.mem_cons, List.mem_append] at hd
        rcases hd with hd | hd | hd
        · rw [hd, hf1, hf2, htitle]
          exact hle3 _ _ (hle2 _ _ hfind)
        · exact hle3 _ _ (hd2 d hd)
        · exact hd3 d hd
      · simp only [descendants_childs, descendants_setTypeID, List.map_cons, List.map_append,
          hf2, htitle, ht2, ht3]
      · refine le_trans hb3 ?_
        rw [hlen]
        have e2 := hb2
        omega

/-- The empty map is numbered, whatever the counter. -/
theorem numbered_empty (ID : Int) : TypeMap.numbered TypeMap.empty ID := by
  constructor
  · intro s t v h
    simp [TypeMap.empty] at h
  · intro s v h
    simp [TypeMap.empty] at h

/-- C23 as stated fails at both ends of the counter. The empty map is injective
with all its values in `1..ID` for every `ID`. With `ID = -1`, `prone2` on a
root with the one child `int` enters `int` with the number 0, which does not
lie in `1..0`. With `ID = INT_MAX`, the increment wraps: `int` is entered with
the number `-2147483648`, the new `ID` is `-2147483648`, smaller than the old
one, and the number does not lie in `1..ID`. -/
theorem C23_counter_leaves_range :
    (TypeMap.empty.numbered (-1) ∧
     (prone2 (.mk 0 "root" "root" 0 [.mk 0 "int" "node1" (-1) []]) TypeMap.empty (-1)).2.2 = 0 ∧
     (prone2 (.mk 0 "root" "root" 0 [.mk 0 "int" "node1" (-1) []]) TypeMap.empty (-1)).2.1 "int"
       = some 0 ∧
     ¬ (prone2 (.mk 0 "root" "root" 0 [.mk 0 "int" "node1" (-1) []]) TypeMap.empty
          (-1)).2.1.numbered
        (prone2 (.mk 0 "root" "root" 0 [.mk 0 "int" "node1" (-1) []]) TypeMap.empty (-1)).2.2) ∧
    (TypeMap.empty.numbered INT_MAX ∧
     (prone2 (.mk 0 "root" "root" 0 [.mk 0 "int" "node1" (-1) []]) TypeMap.empty INT_MAX).2.2
       = -2147483648 ∧
     (prone2 (.mk 0 "root" "root" 0 [.mk 0 "int" "node1" (-1) []]) TypeMap.empty INT_MAX).2.1
       "int" = some (-2147483648) ∧
     ¬ INT_MAX ≤
        (prone2 (.mk 0 "root" "root" 0 [.mk 0 "int" "node1" (-1) []]) TypeMap.empty INT_MAX).2.2 ∧
     ¬ (prone2 (.mk 0 "root" "root" 0 [.mk 0 "int" "node1" (-1) []]) TypeMap.empty
          INT_MAX).2.1.numbered
        (prone2 (.mk 0 "root" "root" 0 [.mk 0 "int" "node1" (-1) []]) TypeMap.empty
          INT_MAX).2.2) := by
  refine ⟨⟨numbered_empty _, by decide, by decide, ?_⟩,
    ⟨numbered_empty _, by decide, by decide, by decide, ?_⟩⟩
  · intro h
    have h1 := (h.2 "int" 0 (by decide)).1
    omega
  · intro h
    have h1 := (h.2 "int" (-2147483648) (by decide)).1
    omega

/-- C23, for a counter that is not negative and cannot overflow: `prone2`
numbers types consistently. From a map that is injective with values in
`1..ID`, where `0 <= ID` and `ID` plus the number of proper descendants of the
root is at most `INT_MAX`, the call gives a map that extends the old one and is
still injective with values in `1..ID` for the new `ID`, which is not smaller;
the titles of the proper descendants of the root are as before; every proper
descendant `d` has `typeID = typeMap[title(d)]`; and two proper descendants
have equal `typeID` if and only if they have equal titles. -/
theorem C23_prone2_numbers_consistently (root : TypeNode) (typeMap : TypeMap) (ID : Int)
    (h0 : 0 ≤ ID) (hfit : ID + (descendants root).length ≤ INT_MAX)
    (h : typeMap.numbered ID) :
    typeMap.le (prone2 root typeMap ID).2.1 ∧
    ID ≤ (prone2 root typeMap ID).2.2 ∧
    (prone2 root typeMap ID).2.1.numbered (prone2 root typeMap ID).2.2 ∧
    (descendants (prone2 root typeMap ID).1).map TypeNode.title =
      (descendants root).map TypeNode.title ∧
    (∀ d ∈ descendants (prone2 root typeMap ID).1,
      (prone2 root typeMap ID).2.1 d.title = some d.typeID) ∧
    (∀ d ∈ descendants (prone2 root typeMap ID).1,
      ∀ e ∈ descendants (prone2 root typeMap ID).1,
        d.typeID = e.typeID ↔ d.title = e.title) := by
  obtain ⟨⟨hn, hle, hid, hd, ht, -⟩, -⟩ := prone2_spec root typeMap ID h0 hfit h
  refine ⟨hle, hid, hn, ht, hd, ?_⟩
  intro d hdm e hem
  have h1 := hd d hdm
  have h2 := hd e hem
  constructor
  · intro heq
    rw [heq] at h1
    exact hn.1 _ _ _ h1 h2
  · intro heq
    rw [heq, h2] at h1
    exact (Option.some.inj h1).symm

/-- C23 on `C23_tree` from the empty map and `ID = 0`: the descendants are
numbered `S = 1`, `int = 2`, `char* = 3`, `char = 4`, the second `int` and the
second `char` get the numbers of the first, and `ID` ends at 4. -/
theorem C23_prone2_numbers_consistently_witness :
    (0 : Int) ≤ 0 ∧ (0 : Int) + (descendants C23_tree).length ≤ INT_MAX ∧
    TypeMap.empty.numbered 0 ∧
    (descendants (prone2 C23_tree TypeMap.empty 0).1).map
      (fun d => (d.title, d.typeID)) =
        [("S", 1), ("int", 2), ("char*", 3), ("char", 4), ("int", 2), ("char", 4)] ∧
    (prone2 C23_tree TypeMap.empty 0).2.2 = 4 ∧
    (prone2 C23_tree TypeMap.empty 0).2.1.numbered (prone2 C23_tree TypeMap.empty 0).2.2 ∧
    (∀ d ∈ descendants (prone2 C23_tree TypeMap.empty 0).1,
      ∀ e ∈ descendants (prone2 C23_tree TypeMap.empty 0).1,
        d.typeID = e.typeID ↔ d.title = e.title) :=
  ⟨le_refl 0, by decide, numbered_empty 0, by decide, by decide,
    (C23_prone2_numbers_consistently C23_tree TypeMap.empty 0 (le_refl 0) (by decide)
      (numbered_empty 0)).2.2.1,
    (C23_prone2_numbers_consistently C23_tree TypeMap.empty 0 (le_refl 0) (by decide)
      (numbered_empty 0)).2.2.2.2.2⟩

/-! ## `printDAG` -/

end Effective
